import Mathlib

/-!
Verification development for the feng-shui layout engine
(`backend/app/services/feng_shui`).  Python floats are modelled with exact
rationals (`ℚ`); Python dictionaries with fixed key sets are modelled as
structures; lists keep their order.  Where Python code relies on `math.atan2`
and `math.degrees`, the embedding uses real-valued `Real.arctan`.

Every definition below is a direct translation of the corresponding Python
function, keeping names and control flow.  Definitions come first, then the
lemmas and the claim theorems.
-/

namespace FengShui

/- ---------------------------------------------------------------------------
geometry_utils.py
--------------------------------------------------------------------------- -/

/-- Translation of `geometry_utils.rectangles_overlap` (the identical local
copy in `room/constraints.py` is shared):
`not (x1 + w1 <= x2 or x2 + w2 <= x1 or y1 + h1 <= y2 or y2 + h2 <= y1)`. -/
def rectangles_overlap (x1 y1 w1 h1 x2 y2 w2 h2 : ℚ) : Bool :=
  !(decide (x1 + w1 ≤ x2) || decide (x2 + w2 ≤ x1) ||
    decide (y1 + h1 ≤ y2) || decide (y2 + h2 ≤ y1))

/-- Translation of `geometry_utils.rectangle_line_intersection` with its
default `line_thickness = 0.3`. -/
def rectangle_line_intersection (rect_x rect_y rect_w rect_h
    line_x1 line_y1 line_x2 line_y2 : ℚ) : Bool :=
  let line_min_x := min line_x1 line_x2 - (3/10) / 2
  let line_max_x := max line_x1 line_x2 + (3/10) / 2
  let line_min_y := min line_y1 line_y2 - (3/10) / 2
  let line_max_y := max line_y1 line_y2 + (3/10) / 2
  rectangles_overlap rect_x rect_y rect_w rect_h
    line_min_x line_min_y (line_max_x - line_min_x) (line_max_y - line_min_y)

/-- Python's `int(...)` applied to a float/rational truncates toward zero. -/
def pyint (q : ℚ) : ℤ :=
  if 0 ≤ q then ⌊q⌋ else -⌊-q⌋

/-- Python's `str.lower()` for the ASCII identifiers appearing in the code,
modelled by mapping `Char.toLower` over the characters (the library
`String.toLower` is extensionally the same but harder to evaluate). -/
def pyLower (s : String) : String :=
  String.mk (s.data.map Char.toLower)

/-- Python's substring test `needle in haystack`, on the character lists. -/
def charsContain (needle : List Char) : List Char → Bool
  | [] => needle.isEmpty
  | c :: rest => needle.isPrefixOf (c :: rest) || charsContain needle rest

/-- Python's `needle in haystack` on strings. -/
def pyIn (needle haystack : String) : Bool :=
  charsContain needle.data haystack.data

/- ---------------------------------------------------------------------------
kua_calculator.py
--------------------------------------------------------------------------- -/

inductive KuaGroup
  | east
  | west
deriving DecidableEq

/-- Auxiliary fuelled recursion computing the decimal digit sum; the fuel `n`
itself always suffices because `n / 10 < n` for positive `n`. -/
def digit_sum_fuel : ℕ → ℕ → ℕ
  | 0, n => n
  | fuel + 1, n => if n < 10 then n else n % 10 + digit_sum_fuel fuel (n / 10)

/-- Translation of `sum(int(digit) for digit in str(year))`. -/
def digit_sum (n : ℕ) : ℕ :=
  digit_sum_fuel n n

/-- Auxiliary fuelled recursion for the `while year_sum > 9` reduction loop;
fuel `s` suffices because `digit_sum s < s` whenever `s > 9`. -/
def digital_root_fuel : ℕ → ℕ → ℕ
  | 0, s => s
  | fuel + 1, s => if s > 9 then digital_root_fuel fuel (digit_sum s) else s

/-- Translation of the `while year_sum > 9: year_sum = sum(...)` loop in
`calculate_kua_number`. -/
def digital_root_loop (s : ℕ) : ℕ :=
  digital_root_fuel s s

/-- Translation of `kua_calculator.calculate_kua_number`.  Missing data
(`not all([...])`, i.e. empty gender string or a zero component) yields
`none`.  Note the `elif` chains: for females the `kua == 5` remap is only
reachable when `kua` was never above 9. -/
def calculate_kua_number (gender : String)
    (birth_year birth_month birth_day : ℕ) : Option ℕ :=
  if gender = "" ∨ birth_year = 0 ∨ birth_month = 0 ∨ birth_day = 0 then
    none
  else
    let lunar_year :=
      if birth_month = 1 ∨ (birth_month = 2 ∧ birth_day < 4) then
        birth_year - 1
      else
        birth_year
    if pyLower gender = "male" then
      let year_sum := digital_root_loop (digit_sum lunar_year)
      let kua := 10 - year_sum
      let kua := if kua = 10 then 1 else if kua = 5 then 2 else kua
      some kua
    else
      let year_sum := digital_root_loop (digit_sum lunar_year)
      let kua := year_sum + 5
      let kua := if kua > 9 then kua - 9 else if kua = 5 then 8 else kua
      some kua

/-- Translation of `kua_calculator.get_kua_group` (`if not kua_number` treats
both `None` and `0` as missing). -/
def get_kua_group (kua_number : Option ℕ) : Option KuaGroup :=
  match kua_number with
  | none => none
  | some k =>
    if k = 0 then none
    else if [1, 3, 4, 9].contains k then some KuaGroup.east
    else if [2, 5, 6, 7, 8].contains k then some KuaGroup.west
    else none

/- ---------------------------------------------------------------------------
Data model shared by the placer and the scorer
--------------------------------------------------------------------------- -/

/-- Room element dictionary (`element_type`, rectangle).  The analysed rooms
always carry all geometry keys, so the fields are total. -/
structure Element where
  element_type : String
  x : ℚ
  y : ℚ
  width : ℚ
  height : ℚ
deriving DecidableEq

/-- Constraint dictionary produced by `room/constraints.py`. -/
structure Constraint where
  type : String
  x : ℚ
  y : ℚ
  width : ℚ
  height : ℚ
  description : String
deriving DecidableEq

/-- Usable-space dictionary of `room/usable_spaces.py`.  The splitting step
creates dictionaries without `area`/`quality` keys; both are written before
they are ever read, so the embedding carries placeholder values until then. -/
structure Space where
  x : ℚ
  y : ℚ
  width : ℚ
  height : ℚ
  area : ℚ
  quality : String
deriving DecidableEq

/-- Command-position dictionary of `room/command_positions.py`.  The Python
code stores `id(door)` as a reference to the generating door; the embedding
stores the door element itself. -/
structure CommandPos where
  x : ℚ
  y : ℚ
  quality : String
  has_wall_behind : Bool
  door : Element
  suitable_for : List String
deriving DecidableEq

/-- Furniture item entry built by `FurniturePlacer._extract_furniture_items`. -/
structure Item where
  id : String
  base_id : String
  name : String
  width : ℚ
  height : ℚ
  feng_shui_role : Option String
  type : String
deriving DecidableEq

/-- Placement dictionary appended to `layout["furniture_placements"]`.  Keys
that only some placement paths write are optional with the dictionary-absent
value `none`. -/
structure Placement where
  item_id : String
  base_id : String
  name : String
  x : ℚ
  y : ℚ
  width : ℚ
  height : ℚ
  rotation : ℕ
  in_command_position : Bool
  against_wall : Bool
  feng_shui_quality : String
  wall_side : Option String := none
  bagua_area : Option String := none
  relationship : Option String := none
deriving DecidableEq

/-- Trade-off dictionary appended to `layout["tradeoffs"]`. -/
structure Tradeoff where
  item_id : String
  issue : String
  description : String
  severity : String
  mitigation : String
deriving DecidableEq

/-- Layout accumulator initialised in `place_all_furniture`.  The key
`"constraints"` is read with default `[]` by `filter_available_positions`
but never written by the placer, hence the default. -/
structure Layout where
  furniture_placements : List Placement
  tradeoffs : List Tradeoff
  feng_shui_score : ℤ
  constraints : List Constraint := []
deriving DecidableEq

/- ---------------------------------------------------------------------------
FurniturePlacer._calculate_layout_score (placer.py)
--------------------------------------------------------------------------- -/

/-- Translation of `FurniturePlacer._calculate_layout_score`.  Every
trade-off in the list is counted individually by severity; percentages are
over the placed items; the clamped score is truncated by Python's `int`. -/
def calculate_layout_score (layout : Layout) : ℤ :=
  let score : ℚ := 70
  let total_items := layout.furniture_placements.length
  if total_items = 0 then 0
  else
    let command_items :=
      (layout.furniture_placements.filter (fun p => p.in_command_position)).length
    let wall_items :=
      (layout.furniture_placements.filter (fun p => p.against_wall)).length
    let good_quality_items :=
      (layout.furniture_placements.filter
        (fun p => p.feng_shui_quality == "excellent" ||
                  p.feng_shui_quality == "good")).length
    let high_severity_issues :=
      (layout.tradeoffs.filter (fun t => t.severity == "high")).length
    let medium_severity_issues :=
      (layout.tradeoffs.filter (fun t => t.severity == "medium")).length
    let low_severity_issues :=
      (layout.tradeoffs.filter
        (fun t => !(t.severity == "high") && !(t.severity == "medium"))).length
    let command_percent : ℚ :=
      if 0 < total_items then (command_items : ℚ) / (total_items : ℚ) * 100 else 0
    let wall_percent : ℚ :=
      if 0 < total_items then (wall_items : ℚ) / (total_items : ℚ) * 100 else 0
    let quality_percent : ℚ :=
      if 0 < total_items then (good_quality_items : ℚ) / (total_items : ℚ) * 100 else 0
    let score := score + command_percent * (15/100)
    let score := score + wall_percent * (1/10)
    let score := score + quality_percent * (1/10)
    let score := score - high_severity_issues * 8
    let score := score - medium_severity_issues * 4
    let score := score - low_severity_issues * 1
    let score := max 0 (min 100 score)
    pyint score

/- ---------------------------------------------------------------------------
Stable sorting, modelling Python's `sorted` / `list.sort`
--------------------------------------------------------------------------- -/

/-- Insert `x` into `l` before the first element that `x` strictly precedes
according to `lt`; used to model Python's stable sorts. -/
def insertSorted (lt : α → α → Bool) (x : α) : List α → List α
  | [] => [x]
  | y :: ys => if lt x y then x :: y :: ys else y :: insertSorted lt x ys

/-- Python's stable `sorted`: `lt a b` means `a` must come strictly before
`b`; elements that do not strictly precede each other keep their input order.
For `sorted(key=k)` use `lt = key-less-than`; for `sorted(key=k,
reverse=True)` use `lt = key-greater-than`. -/
def pySorted (lt : α → α → Bool) (l : List α) : List α :=
  l.foldl (fun acc x => insertSorted lt x acc) []

/- ---------------------------------------------------------------------------
room/constraints.py — merge_overlapping_constraints
--------------------------------------------------------------------------- -/

/-- Strict lexicographic order on the sort key `(c["x"], c["y"])` used by
`merge_overlapping_constraints`. -/
def constraint_sort_lt (a b : Constraint) : Bool :=
  decide (a.x < b.x) || (decide (a.x = b.x) && decide (a.y < b.y))

/-- Translation of the inner sweep of `merge_overlapping_constraints`: walk
the sorted group keeping a `current` constraint, merging any overlapping
successor into the bounding box, emitting `current` otherwise. -/
def merge_sweep : Constraint → List Constraint → List Constraint
  | current, [] => [current]
  | current, c :: rest =>
    if rectangles_overlap current.x current.y current.width current.height
        c.x c.y c.width c.height then
      let x1 := min current.x c.x
      let y1 := min current.y c.y
      let x2 := max (current.x + current.width) (c.x + c.width)
      let y2 := max (current.y + current.height) (c.y + c.height)
      merge_sweep { current with x := x1, y := y1, width := x2 - x1, height := y2 - y1 } rest
    else
      current :: merge_sweep c rest

/-- Order of first occurrence of each constraint type, modelling the
insertion order of the Python `constraint_groups` dictionary. -/
def group_types (constraints : List Constraint) : List String :=
  constraints.foldl (fun acc c => if acc.contains c.type then acc else acc ++ [c.type]) []

/-- Translation of `constraints.merge_overlapping_constraints`: group by
type in first-occurrence order, sort each group by `(x, y)`, then run the
single merging sweep over each group. -/
def merge_overlapping_constraints (constraints : List Constraint) : List Constraint :=
  (group_types constraints).flatMap (fun ty =>
    let group := pySorted constraint_sort_lt (constraints.filter (fun c => c.type == ty))
    match group with
    | [] => []
    | g :: rest => merge_sweep g rest)

/-- Containment of the rectangle of `c` in the rectangle of `m`. -/
def rect_contains (m c : Constraint) : Prop :=
  m.x ≤ c.x ∧ m.y ≤ c.y ∧ c.x + c.width ≤ m.x + m.width ∧
    c.y + c.height ≤ m.y + m.height

/- ---------------------------------------------------------------------------
room/usable_spaces.py
--------------------------------------------------------------------------- -/

/-- Translation of `usable_spaces.split_space_around_constraint`; the four
candidate residual strips are produced in source order (left, right, above,
below).  The Python dictionaries carry no `area`/`quality` keys yet; the
placeholders `0` and `""` below are overwritten before ever being read. -/
def split_space_around_constraint (space : Space) (constraint : Constraint) : List Space :=
  (if constraint.x > space.x then
    [⟨space.x, space.y, constraint.x - space.x, space.height, 0, ""⟩] else []) ++
  (if constraint.x + constraint.width < space.x + space.width then
    [⟨constraint.x + constraint.width, space.y,
      (space.x + space.width) - (constraint.x + constraint.width), space.height, 0, ""⟩]
   else []) ++
  (if constraint.y > space.y then
    [⟨space.x, space.y, space.width, constraint.y - space.y, 0, ""⟩] else []) ++
  (if constraint.y + constraint.height < space.y + space.height then
    [⟨space.x, constraint.y + constraint.height, space.width,
      (space.y + space.height) - (constraint.y + constraint.height), 0, ""⟩]
   else [])

/-- Translation of the first loop of `identify_usable_spaces`: every
unusable-area constraint splits each overlapping usable space. -/
def remove_unusable_spaces (usable_spaces : List Space)
    (constraints : List Constraint) : List Space :=
  constraints.foldl (fun spaces constraint =>
    if constraint.type == "unusable_area" then
      spaces.flatMap (fun space =>
        if rectangles_overlap space.x space.y space.width space.height
            constraint.x constraint.y constraint.width constraint.height then
          split_space_around_constraint space constraint
        else [space])
    else spaces) usable_spaces

/-- Translation of the quality-evaluation loop of `identify_usable_spaces`:
recompute the area, rate it by the size thresholds, then downgrade once per
overlapping traffic-flow constraint. -/
def evaluate_space_quality (constraints : List Constraint) (space : Space) : Space :=
  let area := space.width * space.height
  let quality :=
    if area < 1 then "poor"
    else if area < 2 then "fair"
    else if area < 4 then "good"
    else "excellent"
  let quality := constraints.foldl (fun q constraint =>
    if constraint.type == "traffic_flow" &&
        rectangles_overlap space.x space.y space.width space.height
          constraint.x constraint.y constraint.width constraint.height then
      if q = "excellent" then "good"
      else if q = "good" then "fair"
      else if q = "fair" then "poor"
      else q
    else q) quality
  { space with area := area, quality := quality }

/-- The state of `identify_usable_spaces` just before the final
`area >= 0.5` filter. -/
def usable_spaces_before_filter (room_width room_length : ℚ)
    (constraints : List Constraint) : List Space :=
  let initial : Space := ⟨0, 0, room_width, room_length, room_width * room_length, "excellent"⟩
  let spaces := remove_unusable_spaces [initial] constraints
  spaces.map (evaluate_space_quality constraints)

/-- Translation of `usable_spaces.identify_usable_spaces`. -/
def identify_usable_spaces (room_width room_length : ℚ)
    (constraints : List Constraint) : List Space :=
  (usable_spaces_before_filter room_width room_length constraints).filter
    (fun s => decide ((1:ℚ)/2 ≤ s.area))

/-- Membership of a point in a closed axis-aligned rectangle. -/
def point_in_rect (px py x y w h : ℚ) : Prop :=
  x ≤ px ∧ px ≤ x + w ∧ y ≤ py ∧ py ≤ y + h

/- ---------------------------------------------------------------------------
room/bagua_mapper.py
--------------------------------------------------------------------------- -/

/-- Bagua sector dictionary.  The coordinate keys are written at creation;
the `element`/`life_area`/`colors` keys are only added by the annotation
loop for areas present in the `bagua_elements` table. -/
structure BaguaSector where
  x : ℚ
  y : ℚ
  width : ℚ
  height : ℚ
  element : Option String := none
  life_area : Option String := none
  colors : List String := []
deriving DecidableEq

/-- The `bagua_elements` annotation table of `create_bagua_map`
(element, life area, colors per bagua area).  Note it has no entry for
`"health"`. -/
def bagua_elements : List (String × (String × String × List String)) :=
  [("career", ("water", "career", ["black", "blue"])),
   ("knowledge", ("earth", "wisdom", ["blue", "green"])),
   ("family", ("wood", "family", ["green"])),
   ("wealth", ("wood", "prosperity", ["purple", "green"])),
   ("fame", ("fire", "reputation", ["red"])),
   ("relationships", ("earth", "love", ["pink", "red", "white"])),
   ("children", ("metal", "creativity", ["white", "grey"])),
   ("helpful_people", ("metal", "travel", ["grey", "white"])),
   ("center", ("earth", "health", ["yellow", "brown"]))]

/-- Translation of `bagua_mapper.create_bagua_map`: the 3×3 sector table per
orientation (note the `"health"` entries of the East and West tables), then
the annotation merge for areas present in `bagua_elements`. -/
def create_bagua_map (room_width room_length : ℚ)
    (compass_orientation : String) : List (String × BaguaSector) :=
  let third_width := room_width / 3
  let third_length := room_length / 3
  let cellAt := fun (x y : ℚ) => BaguaSector.mk x y third_width third_length none none []
  let bagua_sectors : List (String × BaguaSector) :=
    if compass_orientation = "N" then
      [("knowledge", cellAt 0 0),
       ("career", cellAt third_width 0),
       ("helpful_people", cellAt (third_width * 2) 0),
       ("family", cellAt 0 third_length),
       ("center", cellAt third_width third_length),
       ("children", cellAt (third_width * 2) third_length),
       ("wealth", cellAt 0 (third_length * 2)),
       ("fame", cellAt third_width (third_length * 2)),
       ("relationships", cellAt (third_width * 2) (third_length * 2))]
    else if compass_orientation = "E" then
      [("family", cellAt 0 0),
       ("health", cellAt third_width 0),
       ("wealth", cellAt (third_width * 2) 0),
       ("knowledge", cellAt 0 third_length),
       ("center", cellAt third_width third_length),
       ("fame", cellAt (third_width * 2) third_length),
       ("career", cellAt 0 (third_length * 2)),
       ("helpful_people", cellAt third_width (third_length * 2)),
       ("children", cellAt (third_width * 2) (third_length * 2))]
    else if compass_orientation = "S" then
      [("relationships", cellAt 0 0),
       ("fame", cellAt third_width 0),
       ("wealth", cellAt (third_width * 2) 0),
       ("children", cellAt 0 third_length),
       ("center", cellAt third_width third_length),
       ("family", cellAt (third_width * 2) third_length),
       ("helpful_people", cellAt 0 (third_length * 2)),
       ("career", cellAt third_width (third_length * 2)),
       ("knowledge", cellAt (third_width * 2) (third_length * 2))]
    else if compass_orientation = "W" then
      [("children", cellAt 0 0),
       ("helpful_people", cellAt third_width 0),
       ("career", cellAt (third_width * 2) 0),
       ("fame", cellAt 0 third_length),
       ("center", cellAt third_width third_length),
       ("knowledge", cellAt (third_width * 2) third_length),
       ("wealth", cellAt 0 (third_length * 2)),
       ("health", cellAt third_width (third_length * 2)),
       ("family", cellAt (third_width * 2) (third_length * 2))]
    else []
  bagua_sectors.map (fun entry =>
    match bagua_elements.lookup entry.1 with
    | some info =>
      (entry.1,
        { entry.2 with
            element := some info.1
            life_area := some info.2.1
            colors := info.2.2 })
    | none => entry)

/- ---------------------------------------------------------------------------
room/command_positions.py
--------------------------------------------------------------------------- -/

/-- Translation of `command_positions.check_wall_support`. -/
def check_wall_support (x y : ℚ) (walls : List Element)
    (room_width room_length : ℚ) : Bool :=
  let near_north := decide (y < room_length * (1/10))
  let near_south := decide (y > room_length * (9/10))
  let near_east := decide (x > room_width * (9/10))
  let near_west := decide (x < room_width * (1/10))
  if near_north || near_south || near_east || near_west then true
  else
    walls.any (fun wall =>
      decide (|x - wall.x| < 1/2) || decide (|x - (wall.x + wall.width)| < 1/2) ||
      decide (|y - wall.y| < 1/2) || decide (|y - (wall.y + wall.height)| < 1/2))

/-- Python's `math.atan2`, with its usual quadrant case analysis; the result
lies in `(-π, π]`. -/
noncomputable def pyatan2 (y x : ℝ) : ℝ :=
  if 0 < x then Real.arctan (y / x)
  else if x < 0 ∧ 0 ≤ y then Real.arctan (y / x) + Real.pi
  else if x < 0 ∧ y < 0 then Real.arctan (y / x) - Real.pi
  else if x = 0 ∧ 0 < y then Real.pi / 2
  else if x = 0 ∧ y < 0 then -(Real.pi / 2)
  else 0

/-- Python's float modulo `a % 360` (the result has the sign of the
divisor). -/
noncomputable def pymod360 (a : ℝ) : ℝ :=
  a - 360 * ⌊a / 360⌋

/-- Translation of `math.degrees(math.atan2(dy, dx)) % 360` as computed in
`identify_command_positions`. -/
noncomputable def bearing_degrees (dy dx : ℚ) : ℝ :=
  pymod360 (pyatan2 (dy : ℝ) (dx : ℝ) * 180 / Real.pi)

/-- The alignment test of `identify_command_positions`:
`any(abs(angle_degrees - a) < 10 for a in [0, 90, 180, 270])`. -/
def is_aligned_deg (deg : ℝ) : Prop :=
  |deg - 0| < 10 ∨ |deg - 90| < 10 ∨ |deg - 180| < 10 ∨ |deg - 270| < 10

/-- The claim's notion of being within 10 degrees of an axis bearing, for an
angle normalised to `[0, 360)`: distance is measured modulo 360, so angles
just below 360 are within 10 degrees of 0. -/
def within10_of_axis_mod360 (deg : ℝ) : Prop :=
  min |deg - 0| (360 - |deg - 0|) < 10 ∨ min |deg - 90| (360 - |deg - 90|) < 10 ∨
  min |deg - 180| (360 - |deg - 180|) < 10 ∨ min |deg - 270| (360 - |deg - 270|) < 10

open Classical in
/-- Translation of `command_positions.identify_command_positions`.  The
Python code keeps a mutable `position_quality` that starts `"good"`, becomes
`"excellent"` with wall support, is overwritten by `"poor"` when the bearing
from the door centre is flagged as aligned, and the candidate is emitted only
when the final quality is not `"poor"`. -/
noncomputable def identify_command_positions (elements : List Element)
    (room_width room_length : ℚ) : List CommandPos :=
  let doors := elements.filter (fun e => e.element_type == "door")
  let walls := elements.filter (fun e => e.element_type == "wall")
  if doors.isEmpty then []
  else
    doors.flatMap (fun door =>
      let door_center_x := door.x + door.width / 2
      let door_center_y := door.y + door.height / 2
      let diagonal_positions : List (ℚ × ℚ) :=
        [(door_center_x + room_width * (3/10), door_center_y + room_length * (3/10)),
         (door_center_x + room_width * (3/10), door_center_y - room_length * (3/10)),
         (door_center_x - room_width * (3/10), door_center_y + room_length * (3/10)),
         (door_center_x - room_width * (3/10), door_center_y - room_length * (3/10))]
      let diagonal_positions := diagonal_positions.filter (fun p =>
        decide (0 ≤ p.1) && decide (p.1 ≤ room_width) &&
        decide (0 ≤ p.2) && decide (p.2 ≤ room_length))
      diagonal_positions.filterMap (fun pos =>
        let has_wall_behind := check_wall_support pos.1 pos.2 walls room_width room_length
        let position_quality := "good"
        let position_quality := if has_wall_behind then "excellent" else position_quality
        let angle_degrees := bearing_degrees (pos.2 - door_center_y) (pos.1 - door_center_x)
        let position_quality := if is_aligned_deg angle_degrees then "poor" else position_quality
        if position_quality ≠ "poor" then
          some ⟨pos.1, pos.2, position_quality, has_wall_behind, door, ["bed", "desk"]⟩
        else none))

/- ---------------------------------------------------------------------------
furniture/ — shared data and utils.py
--------------------------------------------------------------------------- -/

/-- Translation of `enums.LayoutStrategy`. -/
inductive LayoutStrategy
  | optimal
  | space_conscious
  | life_goal
deriving DecidableEq

/-- Energy flow path dictionary (`start_x` … keys read with default 0). -/
structure FlowPath where
  start_x : ℚ
  start_y : ℚ
  end_x : ℚ
  end_y : ℚ
deriving DecidableEq

/-- Energy entry point dictionary. -/
structure EntryPoint where
  x : ℚ
  y : ℚ
  type : String
  strength : String
deriving DecidableEq

/-- Energy issue dictionary. -/
structure EnergyIssue where
  type : String
  x : ℚ
  y : ℚ
deriving DecidableEq

/-- The `energy_flows` analysis dictionary consumed by the placer. -/
structure EnergyFlows where
  flow_paths : List FlowPath
  energy_entry_points : List EntryPoint
  energy_issues : List EnergyIssue
deriving DecidableEq

/-- Candidate position dictionary used by the placement strategies.  Keys
that only some generators write are optional, with `none` standing for an
absent key. -/
structure PlacePos where
  x : ℚ
  y : ℚ
  rotation : ℕ := 0
  quality : Option String := none
  wall_side : Option String := none
  overlaps_flow : Bool := false
  relationship : Option String := none
  bagua_area : Option String := none
  in_command_position : Bool := false
deriving DecidableEq

/-- Translation of `utils.get_furniture_type` (substring dispatch on the
lower-cased catalog id). -/
def get_furniture_type (furniture_id : String) : String :=
  let fid := pyLower furniture_id
  if pyIn "bed" fid then "bed"
  else if pyIn "desk" fid then "desk"
  else if pyIn "table" fid then "table"
  else if pyIn "sofa" fid || pyIn "chair" fid then "seating"
  else if pyIn "shelf" fid || pyIn "bookcase" fid then "storage"
  else if pyIn "dresser" fid || pyIn "chest" fid then "storage"
  else if pyIn "wardrobe" fid || pyIn "closet" fid then "storage"
  else if pyIn "plant" fid then "decor"
  else if pyIn "lamp" fid || pyIn "light" fid then "lighting"
  else "other"

/-- The room-bounds test of `filter_available_positions`:
`not (pos_x < 0 or pos_y < 0 or pos_x + w > room_width or pos_y + h > room_length)`. -/
def position_fits_room (pos_x pos_y w h room_width room_length : ℚ) : Bool :=
  !(decide (pos_x < 0) || decide (pos_y < 0) ||
    decide (pos_x + w > room_width) || decide (pos_y + h > room_length))

/-- Translation of `utils.filter_available_positions`.  The Python loop
appends a rotated copy of an out-of-bounds position onto the list it is
iterating; every appended entry has rotation 90 and can never append again,
so the iteration is equivalent to this two-pass form: collect the appended
rotated retries, then filter the originals followed by the appended ones. -/
def filter_available_positions (positions : List PlacePos) (width height : ℚ)
    (layout : Layout) (room_width room_length : ℚ)
    (rotate_if_needed : Bool) : List PlacePos :=
  let appended := positions.filterMap (fun pos =>
    let actual_width := if pos.rotation = 90 then height else width
    let actual_height := if pos.rotation = 90 then width else height
    if !position_fits_room pos.x pos.y actual_width actual_height room_width room_length
        && rotate_if_needed && decide (pos.rotation = 0) && !decide (width = height)
        && position_fits_room pos.x pos.y height width room_width room_length then
      some { pos with rotation := 90 }
    else none)
  (positions ++ appended).filter (fun pos =>
    let actual_width := if pos.rotation = 90 then height else width
    let actual_height := if pos.rotation = 90 then width else height
    position_fits_room pos.x pos.y actual_width actual_height room_width room_length
    && !(layout.furniture_placements.any (fun placed =>
        rectangles_overlap pos.x pos.y actual_width actual_height
          placed.x placed.y placed.width placed.height))
    && !(layout.constraints.any (fun c =>
        c.type == "unusable_area" &&
        rectangles_overlap pos.x pos.y actual_width actual_height
          c.x c.y c.width c.height)))

/-- The `relation_bonus` table of `utils.choose_best_position` (lookup of
`pos.get("relationship", "")` with default 0). -/
def relation_bonus (r : Option String) : ℚ :=
  match r with
  | some "bedside" => 4
  | some "sofaside" => 3
  | some "balance_corner" => 3
  | _ => 0

/-- One position's score in `utils.choose_best_position`; `rnd` is the
`random.uniform(0, 0.5)` draw for this position. -/
def position_score (pos : PlacePos) (rnd : ℚ) : ℚ :=
  let quality_score : ℚ :=
    match pos.quality.getD "fair" with
    | "excellent" => 10
    | "good" => 8
    | "fair" => 5
    | "poor" => 2
    | _ => 5
  let s := quality_score
  let s := if (pos.wall_side.getD "") ≠ "" then s + 3 else s
  let s := if pos.in_command_position then s + 5 else s
  let s := if pos.overlaps_flow then s - 3 else s
  let s := s + relation_bonus pos.relationship
  s + rnd

/-- Translation of `utils.choose_best_position`; the PRNG is modelled by the
explicit draw function `rnd`, indexed by the position's index in the list. -/
def choose_best_position (positions : List PlacePos) (rnd : ℕ → ℚ) : PlacePos :=
  match positions with
  | [] => ⟨0, 0, 0, none, none, false, none, none, false⟩
  | p :: rest =>
    if rest.isEmpty then p
    else
      let scored := positions.enum.map (fun pr => (pr.2, position_score pr.2 (rnd pr.1)))
      let sorted := pySorted (fun a b => decide (a.2 > b.2)) scored
      (sorted.headD (p, 0)).1

/-- Translation of `utils.determine_target_bagua_areas`.  The Python
function also receives the strategy argument but never reads it. -/
def determine_target_bagua_areas (item : Item) (life_goal : Option String) : List String :=
  let item_type := get_furniture_type item.base_id
  let target_areas :=
    if item_type = "bed" then ["relationships", "health"]
    else if item_type = "desk" then ["knowledge", "career"]
    else if item_type = "lighting" then ["fame", "knowledge"]
    else if item_type = "decor" && pyIn "plant" (pyLower item.base_id) then
      ["wealth", "family", "health"]
    else ["center", "health"]
  match life_goal with
  | none => target_areas
  | some goal =>
    if goal = "wealth" then ["wealth", "fame", "helpful_people"] ++ target_areas
    else if goal = "career" then ["career", "knowledge", "helpful_people"] ++ target_areas
    else if goal = "health" then ["center", "family", "health"] ++ target_areas
    else if goal = "relationships" then ["relationships", "family", "center"] ++ target_areas
    else target_areas

/-- Translation of `utils.check_for_bad_placements`.  Each of the three
checks appends at most one trade-off (the Python loops `break` after the
first hit). -/
def check_for_bad_placements (item : Item) (placement : Placement)
    (elements : List Element) : List Tradeoff :=
  let windows := elements.filter (fun e => e.element_type == "window")
  let doors := elements.filter (fun e => e.element_type == "door")
  let bed_tradeoffs : List Tradeoff :=
    if pyIn "bed" (pyLower item.base_id) &&
        windows.any (fun w =>
          rectangles_overlap placement.x placement.y placement.width placement.height
            w.x w.y w.width w.height) then
      [⟨placement.item_id, "bed_under_window",
        "Bed is positioned under a window, which can cause unstable energy", "high",
        "If possible, move bed to a position with a solid wall behind it"⟩]
    else []
  let door_tradeoffs : List Tradeoff :=
    if doors.any (fun door =>
        rectangles_overlap placement.x placement.y placement.width placement.height
          (door.x - 1) (door.y - 1) (door.width + 2) (door.height + 2)) then
      [⟨placement.item_id, "blocks_door",
        item.name ++ " may block proper door function or energy flow", "medium",
        "Ensure at least 1m clearance in front of doors"⟩]
    else []
  let desk_tradeoffs : List Tradeoff :=
    if pyIn "desk" (pyLower item.base_id) && !placement.in_command_position then
      [⟨placement.item_id, "desk_not_command",
        "Desk is not in command position, which may reduce productivity", "medium",
        "Try to position desk diagonally across from door with solid wall behind"⟩]
    else []
  bed_tradeoffs ++ door_tradeoffs ++ desk_tradeoffs

/- ---------------------------------------------------------------------------
furniture/command_position.py
--------------------------------------------------------------------------- -/

/-- Translation of `command_position.filter_suitable_positions`. -/
def filter_suitable_positions (command_positions : List CommandPos) (item : Item) :
    List CommandPos :=
  let item_type := get_furniture_type item.base_id
  command_positions.filter (fun pos =>
    pos.suitable_for.contains item_type || pos.suitable_for.contains "any")

/-- The quality ranking dictionary shared by the sorting helpers
(`{"excellent": 4, "good": 3, "fair": 2, "poor": 1}` with default 0). -/
def quality_rank (q : String) : ℕ :=
  if q = "excellent" then 4
  else if q = "good" then 3
  else if q = "fair" then 2
  else if q = "poor" then 1
  else 0

/-- The same ranking applied to an optional `pos.get("quality")` value
(an absent key ranks 0). -/
def quality_rank_opt (q : Option String) : ℕ :=
  match q with
  | some s => quality_rank s
  | none => 0

/-- Translation of `command_position.sort_command_positions` (stable sort,
descending by quality rank then wall support). -/
def sort_command_positions (positions : List CommandPos) : List CommandPos :=
  pySorted (fun a b =>
    let ka := quality_rank a.quality
    let kb := quality_rank b.quality
    let wa := if a.has_wall_behind then 1 else (0 : ℕ)
    let wb := if b.has_wall_behind then 1 else (0 : ℕ)
    decide (kb < ka) || (decide (ka = kb) && decide (wb < wa))) positions

/-- Translation of `command_position.is_position_occupied`. -/
def is_position_occupied (position : CommandPos) (item : Item) (layout : Layout) : Bool :=
  let pos_x := position.x - item.width / 2
  let pos_y := position.y - item.height / 2
  layout.furniture_placements.any (fun placed =>
    rectangles_overlap pos_x pos_y item.width item.height
      placed.x placed.y placed.width placed.height)

/-- Translation of `command_position.check_bad_placement` (beds must not be
centred over a window). -/
def check_bad_placement (position : CommandPos) (item : Item)
    (elements : List Element) : Bool :=
  let pos_x := position.x - item.width / 2
  let pos_y := position.y - item.height / 2
  if pyIn "bed" (pyLower item.base_id) then
    (elements.filter (fun e => e.element_type == "window")).any (fun w =>
      rectangles_overlap pos_x pos_y item.width item.height w.x w.y w.width w.height)
  else false

/-- Translation of `command_position.create_command_placement`.  The item is
centred on the command point with no room-bounds check; the kua rotation
branch of the source is a stub that also assigns rotation 0. -/
def create_command_placement (position : CommandPos) (item : Item)
    (kua_group : Option KuaGroup) : Placement :=
  let x_position := position.x - item.width / 2
  let y_position := position.y - item.height / 2
  let rotation := if kua_group.isSome && pyIn "bed" (pyLower item.base_id) then 0 else 0
  { item_id := item.id
    base_id := item.base_id
    name := item.name
    x := x_position
    y := y_position
    width := item.width
    height := item.height
    rotation := rotation
    in_command_position := true
    against_wall := position.has_wall_behind
    feng_shui_quality := position.quality }

/-- The candidate loop of `place_in_command_position`: try each sorted
position, skipping occupied or bad ones, and on success append the
wall-support note and the bad-placement trade-offs to the layout. -/
def command_try_positions (item : Item) (layout : Layout) (elements : List Element)
    (kua_group : Option KuaGroup) : List CommandPos → Option Placement × Layout
  | [] => (none, layout)
  | position :: rest =>
    if is_position_occupied position item layout then
      command_try_positions item layout elements kua_group rest
    else if check_bad_placement position item elements then
      command_try_positions item layout elements kua_group rest
    else
      let placement := create_command_placement position item kua_group
      let layout :=
        if !position.has_wall_behind then
          { layout with tradeoffs := layout.tradeoffs ++
              [⟨item.id, "no_wall_behind", item.name ++ " is not against a solid wall",
                "medium", "Add a solid headboard or tall furniture behind it"⟩] }
        else layout
      let layout := { layout with tradeoffs := layout.tradeoffs ++
          check_for_bad_placements item placement elements }
      (some placement, layout)

/-- Translation of `command_position.place_in_command_position`. -/
def place_in_command_position (item : Item) (layout : Layout)
    (command_positions : List CommandPos) (elements : List Element)
    (kua_group : Option KuaGroup) : Option Placement × Layout :=
  if command_positions.isEmpty then (none, layout)
  else
    let suitable_positions := filter_suitable_positions command_positions item
    let suitable_positions :=
      if suitable_positions.isEmpty && !command_positions.isEmpty then command_positions
      else suitable_positions
    let suitable_positions := sort_command_positions suitable_positions
    command_try_positions item layout elements kua_group suitable_positions

/- ---------------------------------------------------------------------------
furniture/wall_placement.py
--------------------------------------------------------------------------- -/

/-- Processed wall dictionary of `wall_placement.process_walls`. -/
structure WallSeg where
  x : ℚ
  y : ℚ
  width : ℚ
  height : ℚ
  orientation : String
deriving DecidableEq

/-- Translation of `wall_placement.process_walls` (virtual boundary walls of
thickness 0.2 when none are defined). -/
def process_walls (walls : List Element) (room_width room_length : ℚ) : List WallSeg :=
  if walls.isEmpty then
    [⟨0, 0, room_width, 1/5, "horizontal"⟩,
     ⟨room_width - 1/5, 0, 1/5, room_length, "vertical"⟩,
     ⟨0, room_length - 1/5, room_width, 1/5, "horizontal"⟩,
     ⟨0, 0, 1/5, room_length, "vertical"⟩]
  else
    walls.map (fun wall =>
      ⟨wall.x, wall.y, wall.width, wall.height,
        if wall.width > wall.height then "horizontal" else "vertical"⟩)

/-- Translation of `wall_placement.generate_wall_positions` (steps of 0.5
along each wall, at least 3 candidates per wall). -/
def generate_wall_positions (walls : List WallSeg) (item : Item) : List PlacePos :=
  walls.flatMap (fun wall =>
    let is_horizontal := wall.orientation == "horizontal"
    if is_horizontal then
      let max_steps := (max 3 (pyint (wall.width / (1/2)))).toNat
      (List.range max_steps).map (fun step =>
        let pos_x := wall.x + ((step : ℚ) * wall.width / (max_steps : ℚ))
        let pos_y := if wall.y < 1 then wall.y + wall.height else wall.y - item.height
        { x := pos_x
          y := pos_y
          rotation := 0
          quality := some "good"
          wall_side := some (if wall.y < 1 then "north" else "south") })
    else
      let max_steps := (max 3 (pyint (wall.height / (1/2)))).toNat
      (List.range max_steps).map (fun step =>
        let pos_y := wall.y + ((step : ℚ) * wall.height / (max_steps : ℚ))
        let pos_x := if wall.x < 1 then wall.x + wall.width else wall.x - item.width
        { x := pos_x
          y := pos_y
          rotation := 0
          quality := some "good"
          wall_side := some (if wall.x < 1 then "west" else "east") }))

/-- Translation of `wall_placement.generate_rotated_wall_positions`. -/
def generate_rotated_wall_positions (walls : List WallSeg) (item : Item) : List PlacePos :=
  let rotated_width := item.height
  let rotated_height := item.width
  walls.flatMap (fun wall =>
    let is_horizontal := wall.orientation == "horizontal"
    if is_horizontal then
      let max_steps := (max 3 (pyint (wall.width / (1/2)))).toNat
      (List.range max_steps).map (fun step =>
        let pos_x := wall.x + ((step : ℚ) * wall.width / (max_steps : ℚ))
        let pos_y := if wall.y < 1 then wall.y + wall.height else wall.y - rotated_height
        { x := pos_x
          y := pos_y
          rotation := 90
          quality := some "good"
          wall_side := some (if wall.y < 1 then "north" else "south") })
    else
      let max_steps := (max 3 (pyint (wall.height / (1/2)))).toNat
      (List.range max_steps).map (fun step =>
        let pos_y := wall.y + ((step : ℚ) * wall.height / (max_steps : ℚ))
        let pos_x := if wall.x < 1 then wall.x + wall.width else wall.x - rotated_width
        { x := pos_x
          y := pos_y
          rotation := 90
          quality := some "good"
          wall_side := some (if wall.x < 1 then "west" else "east") }))

/-- Translation of `wall_placement.place_against_wall`.  The strategy and
kua-group arguments are received but not read by the source body; the PRNG
draws of `choose_best_position` come from `rnd`. -/
def place_against_wall (item : Item) (layout : Layout) (strategy : LayoutStrategy)
    (walls : List Element) (elements : List Element)
    (room_width room_length : ℚ) (kua_group : Option KuaGroup)
    (rnd : ℕ → ℚ) : Option Placement × Layout :=
  let processed_walls := process_walls walls room_width room_length
  let wall_positions := generate_wall_positions processed_walls item
  let available_positions :=
    filter_available_positions wall_positions item.width item.height layout
      room_width room_length false
  let available_positions :=
    if available_positions.isEmpty then
      filter_available_positions (generate_rotated_wall_positions processed_walls item)
        item.height item.width layout room_width room_length false
    else available_positions
  if available_positions.isEmpty then (none, layout)
  else
    let best_position := choose_best_position available_positions rnd
    let actual_width := if best_position.rotation = 90 then item.height else item.width
    let actual_height := if best_position.rotation = 90 then item.width else item.height
    let placement : Placement :=
      { item_id := item.id
        base_id := item.base_id
        name := item.name
        x := best_position.x
        y := best_position.y
        width := actual_width
        height := actual_height
        rotation := best_position.rotation
        in_command_position := false
        against_wall := true
        feng_shui_quality := best_position.quality.getD "good"
        wall_side := best_position.wall_side }
    (some placement,
      { layout with tradeoffs := layout.tradeoffs ++
          check_for_bad_placements item placement elements })

/- ---------------------------------------------------------------------------
furniture/energy_flow_placement.py
--------------------------------------------------------------------------- -/

/-- Translation of `energy_flow_placement.check_flow_overlap`. -/
def check_flow_overlap (x y width height : ℚ) (flow_paths : List FlowPath) : Bool :=
  flow_paths.any (fun path =>
    rectangle_line_intersection x y width height
      path.start_x path.start_y path.end_x path.end_y)

/-- Translation of `energy_flow_placement.generate_grid_positions`.  Where
Python would raise `ZeroDivisionError` on a degenerate grid step, the
embedding's rational convention `q / 0 = 0` yields an empty grid. -/
def generate_grid_positions (room_width room_length : ℚ) (item : Item)
    (flow_paths : List FlowPath) (strategy : LayoutStrategy) : List PlacePos :=
  let grid_step := min (1/2) (min room_width room_length / 10)
  (List.range (pyint (room_width / grid_step)).toNat).flatMap (fun x =>
    (List.range (pyint (room_length / grid_step)).toNat).filterMap (fun y =>
      let pos_x := (x : ℚ) * grid_step
      let pos_y := (y : ℚ) * grid_step
      if decide (pos_x + item.width > room_width) ||
          decide (pos_y + item.height > room_length) then none
      else
        let overlaps_flow := check_flow_overlap pos_x pos_y item.width item.height flow_paths
        if strategy = LayoutStrategy.optimal && overlaps_flow then none
        else
          let quality := if !overlaps_flow then "good" else "fair"
          some { x := pos_x, y := pos_y, rotation := 0, quality := some quality,
                 overlaps_flow := overlaps_flow }))

/-- Translation of `energy_flow_placement.generate_rotated_grid_positions`. -/
def generate_rotated_grid_positions (room_width room_length : ℚ) (item : Item)
    (flow_paths : List FlowPath) (strategy : LayoutStrategy) : List PlacePos :=
  let grid_step := min (1/2) (min room_width room_length / 10)
  (List.range (pyint (room_width / grid_step)).toNat).flatMap (fun x =>
    (List.range (pyint (room_length / grid_step)).toNat).filterMap (fun y =>
      let pos_x := (x : ℚ) * grid_step
      let pos_y := (y : ℚ) * grid_step
      if decide (pos_x + item.height > room_width) ||
          decide (pos_y + item.width > room_length) then none
      else
        let overlaps_flow := check_flow_overlap pos_x pos_y item.height item.width flow_paths
        if strategy = LayoutStrategy.optimal && overlaps_flow then none
        else
          let quality := if !overlaps_flow then "good" else "fair"
          some { x := pos_x, y := pos_y, rotation := 90, quality := some quality,
                 overlaps_flow := overlaps_flow }))

/-- Translation of `energy_flow_placement.place_with_energy_flow`. -/
def place_with_energy_flow (item : Item) (layout : Layout)
    (strategy : LayoutStrategy) (energy_flows : EnergyFlows)
    (elements : List Element) (room_width room_length : ℚ)
    (life_goal : Option String) : Option Placement × Layout :=
  let flow_paths := energy_flows.flow_paths
  let potential_positions :=
    generate_grid_positions room_width room_length item flow_paths strategy
  let available_positions :=
    filter_available_positions potential_positions item.width item.height layout
      room_width room_length false
  let available_positions :=
    if available_positions.isEmpty then
      available_positions ++
        filter_available_positions
          (generate_rotated_grid_positions room_width room_length item flow_paths strategy)
          item.height item.width layout room_width room_length false
    else available_positions
  if available_positions.isEmpty then (none, layout)
  else
    let available_positions := pySorted (fun a b =>
      let ka := (quality_rank_opt a.quality, if a.overlaps_flow then 0 else (1 : ℕ))
      let kb := (quality_rank_opt b.quality, if b.overlaps_flow then 0 else (1 : ℕ))
      decide (kb.1 < ka.1) || (decide (ka.1 = kb.1) && decide (kb.2 < ka.2)))
      available_positions
    let best_position := available_positions.headD ⟨0, 0, 0, none, none, false, none, none, false⟩
    let actual_width := if best_position.rotation = 90 then item.height else item.width
    let actual_height := if best_position.rotation = 90 then item.width else item.height
    let placement : Placement :=
      { item_id := item.id
        base_id := item.base_id
        name := item.name
        x := best_position.x
        y := best_position.y
        width := actual_width
        height := actual_height
        rotation := best_position.rotation
        in_command_position := false
        against_wall := false
        feng_shui_quality := best_position.quality.getD "" }
    let layout :=
      if best_position.overlaps_flow then
        { layout with tradeoffs := layout.tradeoffs ++
            [⟨item.id, "blocks_energy_flow",
              item.name ++ " may block natural movement through the space", "low",
              "Consider repositioning for better energy flow or adding a plant nearby"⟩] }
      else layout
    (some placement,
      { layout with tradeoffs := layout.tradeoffs ++
          check_for_bad_placements item placement elements })

/- ---------------------------------------------------------------------------
furniture/small_item_placement.py
--------------------------------------------------------------------------- -/

/-- Translation of `small_item_placement.generate_furniture_nearby_positions`. -/
def generate_furniture_nearby_positions (layout : Layout) (item : Item) : List PlacePos :=
  layout.furniture_placements.flatMap (fun placed =>
    if pyIn "nightstand" (pyLower item.base_id) && pyIn "bed" (pyLower placed.base_id) then
      let side1_x := placed.x - item.width - 1/10
      let side2_x := placed.x + placed.width + 1/10
      let side_y := placed.y + (placed.height - item.height) / 2
      [{ x := side1_x, y := side_y, rotation := 0, quality := some "excellent",
         relationship := some "bedside" },
       { x := side2_x, y := side_y, rotation := 0, quality := some "excellent",
         relationship := some "bedside" }]
    else if pyIn "side_table" (pyLower item.base_id) && pyIn "sofa" (pyLower placed.base_id) then
      let end1_x := placed.x - item.width - 1/10
      let end2_x := placed.x + placed.width + 1/10
      let side_y := placed.y + (placed.height - item.height) / 2
      [{ x := end1_x, y := side_y, rotation := 0, quality := some "excellent",
         relationship := some "sofaside" },
       { x := end2_x, y := side_y, rotation := 0, quality := some "excellent",
         relationship := some "sofaside" }]
    else if pyIn "lamp" (pyLower item.base_id) &&
        (["desk", "sofa", "chair"].any (fun f => pyIn f (pyLower placed.base_id))) then
      [{ x := placed.x + placed.width + 1/10, y := placed.y, rotation := 0,
         quality := some "excellent", relationship := some "lighting" }]
    else [])

/-- Translation of `small_item_placement.generate_energy_balance_positions`. -/
def generate_energy_balance_positions (energy_flows : EnergyFlows) (item : Item) :
    List PlacePos :=
  let plant_positions :=
    if pyIn "plant" (pyLower item.base_id) then
      energy_flows.energy_issues.flatMap (fun issue =>
        if issue.type == "sharp_corner" then
          [{ x := issue.x - item.width / 2, y := issue.y - item.height / 2, rotation := 0,
             quality := some "excellent", relationship := some "balance_corner" }]
        else if issue.type == "stagnant_energy" then
          [{ x := issue.x - item.width / 2, y := issue.y - item.height / 2, rotation := 0,
             quality := some "excellent", relationship := some "activate_energy" }]
        else [])
    else []
  let water_positions :=
    if pyIn "fountain" (pyLower item.base_id) || pyIn "water" (pyLower item.base_id) then
      energy_flows.energy_entry_points.flatMap (fun entry_point =>
        if entry_point.type == "door" && entry_point.strength == "strong" then
          [{ x := entry_point.x + 1, y := entry_point.y + 1, rotation := 0,
             quality := some "excellent", relationship := some "enhance_entry" }]
        else [])
    else []
  plant_positions ++ water_positions

/-- Translation of `small_item_placement.generate_bagua_area_positions`.
A degenerate bagua cell would raise `ZeroDivisionError` in Python; the
rational convention `q / 0 = 0` yields an empty grid instead. -/
def generate_bagua_area_positions (bagua_map : List (String × BaguaSector))
    (target_areas : List String) (item : Item) : List PlacePos :=
  target_areas.flatMap (fun area_name =>
    match bagua_map.lookup area_name with
    | none => []
    | some area =>
      let grid_step := min (1/2) (min area.width area.height / 3)
      (List.range (pyint (area.width / grid_step)).toNat).flatMap (fun x_step =>
        (List.range (pyint (area.height / grid_step)).toNat).filterMap (fun y_step =>
          let pos_x := area.x + (x_step : ℚ) * grid_step
          let pos_y := area.y + (y_step : ℚ) * grid_step
          if decide (pos_x + item.width > area.x + area.width) ||
              decide (pos_y + item.height > area.y + area.height) then none
          else
            some { x := pos_x, y := pos_y, rotation := 0, quality := some "good",
                   bagua_area := some area_name })))

/-- The `relation_priority` table of `sort_small_item_positions` (default 0). -/
def relation_priority (r : Option String) : ℕ :=
  match r with
  | some "bedside" => 5
  | some "sofaside" => 4
  | some "balance_corner" => 4
  | some "activate_energy" => 3
  | some "enhance_entry" => 3
  | some "lighting" => 2
  | _ => 0

/-- Translation of `small_item_placement.sort_small_item_positions` (stable
descending sort by quality, relationship priority, target-area hit). -/
def sort_small_item_positions (positions : List PlacePos)
    (target_areas : List String) : List PlacePos :=
  let in_target := fun (p : PlacePos) =>
    match p.bagua_area with
    | some a => if target_areas.contains a then 1 else (0 : ℕ)
    | none => 0
  pySorted (fun a b =>
    let ka := (quality_rank_opt a.quality, relation_priority a.relationship, in_target a)
    let kb := (quality_rank_opt b.quality, relation_priority b.relationship, in_target b)
    decide (kb.1 < ka.1) ||
      (decide (ka.1 = kb.1) &&
        (decide (kb.2.1 < ka.2.1) ||
          (decide (ka.2.1 = kb.2.1) && decide (kb.2.2 < ka.2.2))))) positions

/-- Translation of `small_item_placement.place_small_item`. -/
def place_small_item (item : Item) (layout : Layout) (strategy : LayoutStrategy)
    (bagua_map : List (String × BaguaSector)) (energy_flows : EnergyFlows)
    (elements : List Element) (room_width room_length : ℚ)
    (life_goal : Option String) : Option Placement × Layout :=
  let furniture_positions := generate_furniture_nearby_positions layout item
  let energy_balance_positions := generate_energy_balance_positions energy_flows item
  let target_areas := determine_target_bagua_areas item life_goal
  let bagua_positions := generate_bagua_area_positions bagua_map target_areas item
  let potential_positions := furniture_positions ++ energy_balance_positions ++ bagua_positions
  let available_positions :=
    filter_available_positions potential_positions item.width item.height layout
      room_width room_length false
  if available_positions.isEmpty then (none, layout)
  else
    let available_positions := sort_small_item_positions available_positions target_areas
    let best_position := available_positions.headD ⟨0, 0, 0, none, none, false, none, none, false⟩
    let placement : Placement :=
      { item_id := item.id
        base_id := item.base_id
        name := item.name
        x := best_position.x
        y := best_position.y
        width := item.width
        height := item.height
        rotation := best_position.rotation
        in_command_position := false
        against_wall := false
        feng_shui_quality := best_position.quality.getD "good"
        bagua_area := best_position.bagua_area
        relationship := best_position.relationship }
    (some placement,
      { layout with tradeoffs := layout.tradeoffs ++
          check_for_bad_placements item placement elements })

/- ---------------------------------------------------------------------------
furniture/general_placement.py
--------------------------------------------------------------------------- -/

/-- Translation of `general_placement.sort_usable_spaces` (stable descending
by quality then area). -/
def sort_usable_spaces (usable_spaces : List Space) : List Space :=
  pySorted (fun a b =>
    let ka := (quality_rank a.quality, a.area)
    let kb := (quality_rank b.quality, b.area)
    decide (kb.1 < ka.1) || (decide (ka.1 = kb.1) && decide (kb.2 < ka.2))) usable_spaces

/-- Translation of `general_placement.generate_positions_in_space` (four
corners, centre, then the same five rotated when the dimensions differ and
the rotated item fits the space). -/
def generate_positions_in_space (space : Space) (item : Item) : List PlacePos :=
  let upright : List PlacePos :=
    [{ x := space.x, y := space.y, rotation := 0 },
     { x := space.x + space.width - item.width, y := space.y, rotation := 0 },
     { x := space.x, y := space.y + space.height - item.height, rotation := 0 },
     { x := space.x + space.width - item.width,
       y := space.y + space.height - item.height, rotation := 0 },
     { x := space.x + (space.width - item.width) / 2,
       y := space.y + (space.height - item.height) / 2, rotation := 0 }]
  let rotated : List PlacePos :=
    if item.width ≠ item.height then
      if space.width ≥ item.height ∧ space.height ≥ item.width then
        [{ x := space.x, y := space.y, rotation := 90 },
         { x := space.x + space.width - item.height, y := space.y, rotation := 90 },
         { x := space.x, y := space.y + space.height - item.width, rotation := 90 },
         { x := space.x + space.width - item.height,
           y := space.y + space.height - item.width, rotation := 90 },
         { x := space.x + (space.width - item.height) / 2,
           y := space.y + (space.height - item.width) / 2, rotation := 90 }]
      else []
    else []
  upright ++ rotated

/-- The space loop of `place_furniture_general`: when every usable space is
exhausted the high-severity `unable_to_place` note is appended and `none`
returned; on success the low-severity `suboptimal_placement` note and the
bad-placement checks are appended. -/
def general_try_spaces (item : Item) (layout : Layout) (elements : List Element)
    (room_width room_length : ℚ) : List Space → Option Placement × Layout
  | [] =>
    (none,
      { layout with tradeoffs := layout.tradeoffs ++
          [⟨item.id, "unable_to_place", "Not enough space to place " ++ item.name,
            "high", "Consider removing some furniture or using smaller pieces"⟩] })
  | space :: rest =>
    if decide (space.width < item.width) || decide (space.height < item.height) then
      general_try_spaces item layout elements room_width room_length rest
    else
      let positions := generate_positions_in_space space item
      let available_positions :=
        filter_available_positions positions item.width item.height layout
          room_width room_length true
      match available_positions with
      | [] => general_try_spaces item layout elements room_width room_length rest
      | best_position :: _ =>
        let rotation := best_position.rotation
        let actual_width := if rotation = 90 then item.height else item.width
        let actual_height := if rotation = 90 then item.width else item.height
        let placement : Placement :=
          { item_id := item.id
            base_id := item.base_id
            name := item.name
            x := best_position.x
            y := best_position.y
            width := actual_width
            height := actual_height
            rotation := rotation
            in_command_position := false
            against_wall := false
            feng_shui_quality := space.quality }
        let layout := { layout with tradeoffs := layout.tradeoffs ++
            ([⟨item.id, "suboptimal_placement",
              item.name ++ " couldn't be placed in an ideal feng shui position", "low",
              "Consider element balancing with nearby decor"⟩] : List Tradeoff) }
        let layout := { layout with tradeoffs := layout.tradeoffs ++
            check_for_bad_placements item placement elements }
        (some placement, layout)

/-- Translation of `general_placement.place_furniture_general`.  The
strategy argument is received but not read by the source body. -/
def place_furniture_general (item : Item) (layout : Layout)
    (strategy : LayoutStrategy) (usable_spaces : List Space)
    (elements : List Element) (room_width room_length : ℚ) :
    Option Placement × Layout :=
  general_try_spaces item layout elements room_width room_length
    (sort_usable_spaces usable_spaces)

/-- Translation of `general_placement.try_alternative_placement` (coarse
whole-room grid at both rotations). -/
def try_alternative_placement (item : Item) (layout : Layout)
    (room_width room_length : ℚ) : Option Placement × Layout :=
  let grid_step := min 1 (min room_width room_length / 5)
  let positions : List PlacePos :=
    (List.range (pyint (room_width / grid_step)).toNat).flatMap (fun x =>
      (List.range (pyint (room_length / grid_step)).toNat).filterMap (fun y =>
        let pos_x := (x : ℚ) * grid_step
        let pos_y := (y : ℚ) * grid_step
        if decide (pos_x + item.width > room_width) ||
            decide (pos_y + item.height > room_length) then none
        else some { x := pos_x, y := pos_y, rotation := 0, quality := some "poor" }))
  let positions := positions ++
    (if item.width ≠ item.height then
      (List.range (pyint (room_width / grid_step)).toNat).flatMap (fun x =>
        (List.range (pyint (room_length / grid_step)).toNat).filterMap (fun y =>
          let pos_x := (x : ℚ) * grid_step
          let pos_y := (y : ℚ) * grid_step
          if decide (pos_x + item.height > room_width) ||
              decide (pos_y + item.width > room_length) then none
          else some { x := pos_x, y := pos_y, rotation := 90, quality := some "poor" }))
     else [])
  let available_positions :=
    filter_available_positions positions item.width item.height layout
      room_width room_length true
  match available_positions with
  | [] => (none, layout)
  | pos :: _ =>
    let rotation := pos.rotation
    let actual_width := if rotation = 90 then item.height else item.width
    let actual_height := if rotation = 90 then item.width else item.height
    let placement : Placement :=
      { item_id := item.id
        base_id := item.base_id
        name := item.name
        x := pos.x
        y := pos.y
        width := actual_width
        height := actual_height
        rotation := rotation
        in_command_position := false
        against_wall := false
        feng_shui_quality := "poor" }
    (some placement,
      { layout with tradeoffs := layout.tradeoffs ++
          [⟨item.id, "last_resort_placement",
            item.name ++ " is placed in a non-optimal location", "medium",
            "Consider a different furniture arrangement or smaller pieces"⟩] })

/- ---------------------------------------------------------------------------
furniture/placer.py — FurniturePlacer
--------------------------------------------------------------------------- -/

/-- Room dimensions entry of the room-analysis dictionary. -/
structure Dimensions where
  width : ℚ
  length : ℚ
deriving DecidableEq

/-- The room-analysis dictionary fields read by `FurniturePlacer.__init__`. -/
structure RoomAnalysis where
  dimensions : Dimensions
  elements : List Element
  command_positions : List CommandPos
  usable_spaces : List Space
  energy_flow : EnergyFlows
  bagua_map : List (String × BaguaSector)
deriving DecidableEq

/-- One furniture-selection entry (`furniture_id -> item_data`); the nested
`dimensions` dictionary is flattened into the two size fields. -/
structure ItemData where
  quantity : ℕ
  width : ℚ
  height : ℚ
  customName : Option String
  fengShuiRole : Option String
  itemType : Option String
deriving DecidableEq

/-- The furniture-selections dictionary, in insertion order. -/
structure FurnitureSelections where
  items : List (String × ItemData)
deriving DecidableEq

/-- Python's `str.replace('_', ' ')` for the single-character needle used in
`_extract_furniture_items`. -/
def pyReplaceUnderscore (s : String) : String :=
  String.mk (s.data.map (fun c => if c = '_' then ' ' else c))

/-- Python's `str.title()`: upper-case every letter that follows a
non-letter, lower-case the other letters. -/
def pyTitle (s : String) : String :=
  String.mk ((s.data.foldl (fun acc c =>
    let prev_alpha := match acc with
      | [] => false
      | p :: _ => p.isAlpha
    (if c.isAlpha then (if prev_alpha then c.toLower else c.toUpper) else c) :: acc)
    []).reverse)

/-- Translation of `FurniturePlacer._extract_furniture_items`. -/
def extract_furniture_items (selections : FurnitureSelections) : List Item :=
  selections.items.flatMap (fun entry =>
    let furniture_id := entry.1
    let item_data := entry.2
    if item_data.quantity > 0 then
      (List.range item_data.quantity).map (fun i =>
        { id := furniture_id ++ "_" ++ toString i
          base_id := furniture_id
          name :=
            match item_data.customName with
            | some s => if s ≠ "" then s else pyTitle (pyReplaceUnderscore furniture_id)
            | none => pyTitle (pyReplaceUnderscore furniture_id)
          width := item_data.width
          height := item_data.height
          feng_shui_role := item_data.fengShuiRole
          type := item_data.itemType.getD "furniture" })
    else [])

/-- The loop body of `FurniturePlacer._categorize_furniture`; the four item
lists are carried in the `(command, wall, large, small)` order. -/
def categorize_step (acc : List Item × List Item × List Item × List Item)
    (item : Item) : List Item × List Item × List Item × List Item :=
  let item_type := get_furniture_type item.base_id
  if item_type = "bed" ∨ item_type = "desk" then
    (acc.1 ++ [item], acc.2.1, acc.2.2.1, acc.2.2.2)
  else if ["storage", "bookcase", "dresser", "wardrobe", "cabinet"].contains item_type then
    (acc.1, acc.2.1 ++ [item], acc.2.2.1, acc.2.2.2)
  else if item.width * item.height < 2500 then
    (acc.1, acc.2.1, acc.2.2.1, acc.2.2.2 ++ [item])
  else
    (acc.1, acc.2.1, acc.2.2.1 ++ [item], acc.2.2.2)

/-- Translation of `FurniturePlacer._categorize_furniture`; the four item
lists are returned in the `(command, wall, large, small)` order. -/
def categorize_furniture (all_items : List Item) :
    List Item × List Item × List Item × List Item :=
  all_items.foldl categorize_step ([], [], [], [])

/-- The command-item loop of `place_all_furniture`: primary command
placement, general fallback except under the optimal strategy, last-resort
fallback only under the space-conscious strategy. -/
def run_command_loop (strategy : LayoutStrategy)
    (command_positions : List CommandPos) (elements : List Element)
    (kua_group : Option KuaGroup) (usable_spaces : List Space)
    (room_width room_length : ℚ) : List Item → Layout → Layout
  | [], layout => layout
  | item :: rest, layout =>
    let r1 := place_in_command_position item layout command_positions elements kua_group
    let r2 :=
      if r1.1.isNone && !decide (strategy = LayoutStrategy.optimal) then
        place_furniture_general item r1.2 strategy usable_spaces elements
          room_width room_length
      else r1
    let r3 :=
      if r2.1.isNone && decide (strategy = LayoutStrategy.space_conscious) then
        try_alternative_placement item r2.2 room_width room_length
      else r2
    let layout :=
      match r3.1 with
      | some p => { r3.2 with furniture_placements := r3.2.furniture_placements ++ [p] }
      | none => r3.2
    run_command_loop strategy command_positions elements kua_group usable_spaces
      room_width room_length rest layout

/-- The wall-item loop of `place_all_furniture`; `self.walls` is never set,
so the walls argument passed to `place_against_wall` is always `[]`. -/
def run_wall_loop (strategy : LayoutStrategy) (elements : List Element)
    (kua_group : Option KuaGroup) (usable_spaces : List Space)
    (room_width room_length : ℚ) (rnd : ℕ → ℚ) : List Item → Layout → Layout
  | [], layout => layout
  | item :: rest, layout =>
    let r1 := place_against_wall item layout strategy [] elements
      room_width room_length kua_group rnd
    let r2 :=
      if r1.1.isNone then
        place_furniture_general item r1.2 strategy usable_spaces elements
          room_width room_length
      else r1
    let layout :=
      match r2.1 with
      | some p => { r2.2 with furniture_placements := r2.2.furniture_placements ++ [p] }
      | none => r2.2
    run_wall_loop strategy elements kua_group usable_spaces room_width room_length rnd
      rest layout

/-- The large-item loop of `place_all_furniture`. -/
def run_large_loop (strategy : LayoutStrategy) (energy_flows : EnergyFlows)
    (elements : List Element) (usable_spaces : List Space)
    (room_width room_length : ℚ) (life_goal : Option String) :
    List Item → Layout → Layout
  | [], layout => layout
  | item :: rest, layout =>
    let r1 := place_with_energy_flow item layout strategy energy_flows elements
      room_width room_length life_goal
    let r2 :=
      if r1.1.isNone then
        place_furniture_general item r1.2 strategy usable_spaces elements
          room_width room_length
      else r1
    let layout :=
      match r2.1 with
      | some p => { r2.2 with furniture_placements := r2.2.furniture_placements ++ [p] }
      | none => r2.2
    run_large_loop strategy energy_flows elements usable_spaces room_width room_length
      life_goal rest layout

/-- The small-item loop of `place_all_furniture`. -/
def run_small_loop (strategy : LayoutStrategy)
    (bagua_map : List (String × BaguaSector)) (energy_flows : EnergyFlows)
    (elements : List Element) (usable_spaces : List Space)
    (room_width room_length : ℚ) (life_goal : Option String) :
    List Item → Layout → Layout
  | [], layout => layout
  | item :: rest, layout =>
    let r1 := place_small_item item layout strategy bagua_map energy_flows elements
      room_width room_length life_goal
    let r2 :=
      if r1.1.isNone then
        place_furniture_general item r1.2 strategy usable_spaces elements
          room_width room_length
      else r1
    let layout :=
      match r2.1 with
      | some p => { r2.2 with furniture_placements := r2.2.furniture_placements ++ [p] }
      | none => r2.2
    run_small_loop strategy bagua_map energy_flows elements usable_spaces
      room_width room_length life_goal rest layout

/-- Translation of `FurniturePlacer.place_all_furniture` (the per-strategy
layout generation entry point).  The PRNG stream of the wall stage is
modelled by the draw function `rnd`. -/
def place_all_furniture (room_analysis : RoomAnalysis)
    (furniture_selections : FurnitureSelections) (kua_group : Option KuaGroup)
    (primary_life_goal : Option String) (strategy : LayoutStrategy)
    (rnd : ℕ → ℚ) : Layout :=
  let layout : Layout :=
    { furniture_placements := [], tradeoffs := [], feng_shui_score := 0, constraints := [] }
  let room_width := room_analysis.dimensions.width
  let room_length := room_analysis.dimensions.length
  let all_items := extract_furniture_items furniture_selections
  let categorized := categorize_furniture all_items
  let command_items := categorized.1
  let wall_items := categorized.2.1
  let large_items := categorized.2.2.1
  let small_items := categorized.2.2.2
  let layout := run_command_loop strategy room_analysis.command_positions
    room_analysis.elements kua_group room_analysis.usable_spaces
    room_width room_length command_items layout
  let layout := run_wall_loop strategy room_analysis.elements kua_group
    room_analysis.usable_spaces room_width room_length rnd wall_items layout
  let layout := run_large_loop strategy room_analysis.energy_flow
    room_analysis.elements room_analysis.usable_spaces room_width room_length
    primary_life_goal large_items layout
  let layout := run_small_loop strategy room_analysis.bagua_map
    room_analysis.energy_flow room_analysis.elements room_analysis.usable_spaces
    room_width room_length primary_life_goal small_items layout
  { layout with feng_shui_score := calculate_layout_score layout }

/-- Translation of `enums.severity_value`. -/
def severity_value (severity : String) : ℕ :=
  if severity = "high" then 3
  else if severity = "medium" then 2
  else if severity = "low" then 1
  else 0

/-- Worst severity value among the trade-offs recorded for one item id. -/
def worst_severity_for (tradeoffs : List Tradeoff) (item : String) : ℕ :=
  ((tradeoffs.filter (fun t => t.item_id = item)).map
    (fun t => severity_value t.severity)).foldr max 0

/-- Modelled from the spec (§4.8 LayoutScorer), for comparison with the
implementation: `clamp(0, 100, 70 + 0.15·commandPct + 0.10·wallPct +
0.10·goodQualityPct − 8·highIssues − 4·mediumIssues − 1·lowIssues)` where
issue counts keep only the worst-severity trade-off per item. -/
def spec_layout_score (layout : Layout) : ℚ :=
  let total := layout.furniture_placements.length
  let commandPct : ℚ :=
    ((layout.furniture_placements.filter (fun p => p.in_command_position)).length : ℚ)
      / (total : ℚ) * 100
  let wallPct : ℚ :=
    ((layout.furniture_placements.filter (fun p => p.against_wall)).length : ℚ)
      / (total : ℚ) * 100
  let goodQualityPct : ℚ :=
    ((layout.furniture_placements.filter
        (fun p => p.feng_shui_quality == "excellent" ||
                  p.feng_shui_quality == "good")).length : ℚ)
      / (total : ℚ) * 100
  let ids := (layout.tradeoffs.map (fun t => t.item_id)).foldl
    (fun acc s => if acc.contains s then acc else acc ++ [s]) []
  let highIssues := (ids.filter (fun i => worst_severity_for layout.tradeoffs i = 3)).length
  let mediumIssues := (ids.filter (fun i => worst_severity_for layout.tradeoffs i = 2)).length
  let lowIssues := (ids.filter (fun i => worst_severity_for layout.tradeoffs i = 1)).length
  max 0 (min 100
    (70 + (15/100) * commandPct + (1/10) * wallPct + (1/10) * goodQualityPct
      - 8 * highIssues - 4 * mediumIssues - 1 * lowIssues))

/-- One layout extends another when every recorded trade-off and placement
of the first is still present in the second; the placement stages and loops
only ever append to these two lists. -/
def layout_extends (base ext : Layout) : Prop :=
  (∀ t ∈ base.tradeoffs, t ∈ ext.tradeoffs) ∧
  (∀ p ∈ base.furniture_placements, p ∈ ext.furniture_placements)

/- ===========================================================================
Lemmas and claim theorems
=========================================================================== -/

/-- The fuelled digit sum never exceeds its argument. -/
theorem digit_sum_fuel_le : ∀ fuel n, digit_sum_fuel fuel n ≤ n := by
  intro fuel
  induction fuel with
  | zero => intro n; simp [digit_sum_fuel]
  | succ f ih =>
    intro n
    simp only [digit_sum_fuel]
    split
    · exact le_refl n
    · have h1 : digit_sum_fuel f (n / 10) ≤ n / 10 := ih (n / 10)
      have h2 := Nat.div_add_mod n 10
      omega

/-- For `n ≥ 10` and positive fuel the fuelled digit sum strictly
decreases. -/
theorem digit_sum_fuel_lt : ∀ fuel n, 10 ≤ n → 1 ≤ fuel →
    digit_sum_fuel fuel n < n := by
  intro fuel n h10 hf
  match fuel, hf with
  | f + 1, _ =>
    simp only [digit_sum_fuel]
    rw [if_neg (by omega)]
    have h1 : digit_sum_fuel f (n / 10) ≤ n / 10 := digit_sum_fuel_le f (n / 10)
    have h2 := Nat.div_add_mod n 10
    have h3 : n % 10 < 10 := Nat.mod_lt n (by omega)
    omega

/-- The digit sum of `n` is at most `n`, and strictly below it from 10 on. -/
theorem digit_sum_lt (n : ℕ) (h : 10 ≤ n) : digit_sum n < n :=
  digit_sum_fuel_lt n n h (by omega)

/-- With enough fuel the digital-root loop lands in `[0, 9]`. -/
theorem digital_root_fuel_le_nine : ∀ fuel s, s ≤ fuel →
    digital_root_fuel fuel s ≤ 9 := by
  intro fuel
  induction fuel with
  | zero => intro s hs; interval_cases s; simp [digital_root_fuel]
  | succ f ih =>
    intro s hs
    simp only [digital_root_fuel]
    split
    · rename_i hgt
      have hds : digit_sum s < s := digit_sum_lt s (by omega)
      exact ih (digit_sum s) (by omega)
    · omega

/-- The result of the `while year_sum > 9` loop is at most 9. -/
theorem digital_root_loop_le_nine (s : ℕ) : digital_root_loop s ≤ 9 :=
  digital_root_fuel_le_nine s s (le_refl s)

/-- String `==` in terms of decidable equality, so that evaluation proofs
can reduce boolean string comparisons. -/
theorem string_beq_eq_decide (a b : String) : (a == b) = (if a = b then true else false) := by
  by_cases h : a = b <;> simp [h]

/-- Propositional characterisation of `rectangles_overlap`. -/
theorem rectangles_overlap_iff (x1 y1 w1 h1 x2 y2 w2 h2 : ℚ) :
    rectangles_overlap x1 y1 w1 h1 x2 y2 w2 h2 = true ↔
      x2 < x1 + w1 ∧ x1 < x2 + w2 ∧ y2 < y1 + h1 ∧ y1 < y2 + h2 := by
  simp only [rectangles_overlap, Bool.not_eq_true', Bool.or_eq_false_iff,
    decide_eq_false_iff_not, not_le]
  tauto

/-- The split of a space around a constraint covers every point of the
space that the (closed) constraint rectangle does not cover. -/
theorem split_covers (space : Space) (c : Constraint) (px py : ℚ)
    (hin : point_in_rect px py space.x space.y space.width space.height)
    (hnot : ¬ point_in_rect px py c.x c.y c.width c.height) :
    ∃ s ∈ split_space_around_constraint space c,
      point_in_rect px py s.x s.y s.width s.height := by
  obtain ⟨h1, h2, h3, h4⟩ := hin
  unfold split_space_around_constraint
  by_cases hx1 : px < c.x
  · have hcond : c.x > space.x := lt_of_le_of_lt h1 hx1
    refine ⟨⟨space.x, space.y, c.x - space.x, space.height, 0, ""⟩, by simp [hcond], ?_⟩
    simp only [point_in_rect]
    exact ⟨h1, by linarith, h3, h4⟩
  · by_cases hx2 : c.x + c.width < px
    · have hcond : c.x + c.width < space.x + space.width := lt_of_lt_of_le hx2 h2
      refine ⟨⟨c.x + c.width, space.y,
        (space.x + space.width) - (c.x + c.width), space.height, 0, ""⟩,
        by simp [hcond], ?_⟩
      simp only [point_in_rect]
      exact ⟨le_of_lt hx2, by linarith, h3, h4⟩
    · by_cases hy1 : py < c.y
      · have hcond : c.y > space.y := lt_of_le_of_lt h3 hy1
        refine ⟨⟨space.x, space.y, space.width, c.y - space.y, 0, ""⟩,
          by simp [hcond], ?_⟩
        simp only [point_in_rect]
        exact ⟨h1, h2, h3, by linarith⟩
      · by_cases hy2 : c.y + c.height < py
        · have hcond : c.y + c.height < space.y + space.height := lt_of_lt_of_le hy2 h4
          refine ⟨⟨space.x, c.y + c.height, space.width,
            (space.y + space.height) - (c.y + c.height), 0, ""⟩,
            by simp [hcond], ?_⟩
          simp only [point_in_rect]
          exact ⟨h1, h2, le_of_lt hy2, by linarith⟩
        · exact absurd ⟨not_lt.mp hx1, not_lt.mp hx2, not_lt.mp hy1, not_lt.mp hy2⟩ hnot

/-- Splitting preserves coverage: a point covered by the current spaces stays
covered by the split spaces unless some already-processed unusable-area
constraint covers it. -/
theorem remove_unusable_covers : ∀ (cs : List Constraint) (spaces : List Space)
    (px py : ℚ),
    (∃ s ∈ spaces, point_in_rect px py s.x s.y s.width s.height) →
    (∃ c ∈ cs, c.type = "unusable_area" ∧ point_in_rect px py c.x c.y c.width c.height) ∨
    (∃ s ∈ remove_unusable_spaces spaces cs,
      point_in_rect px py s.x s.y s.width s.height) := by
  intro cs
  induction cs with
  | nil =>
    intro spaces px py h
    right
    simpa [remove_unusable_spaces] using h
  | cons c cs ih =>
    intro spaces px py h
    have hstep : remove_unusable_spaces spaces (c :: cs) =
        remove_unusable_spaces
          (if c.type == "unusable_area" then
            spaces.flatMap (fun space =>
              if rectangles_overlap space.x space.y space.width space.height
                  c.x c.y c.width c.height then
                split_space_around_constraint space c
              else [space])
          else spaces) cs := rfl
    rw [hstep]
    by_cases hty : c.type == "unusable_area"
    · by_cases hpc : point_in_rect px py c.x c.y c.width c.height
      · exact Or.inl ⟨c, List.mem_cons_self c cs, by simpa using hty, hpc⟩
      · obtain ⟨s, hs, hin⟩ := h
        have hcov : ∃ s' ∈ (if c.type == "unusable_area" then
            spaces.flatMap (fun space =>
              if rectangles_overlap space.x space.y space.width space.height
                  c.x c.y c.width c.height then
                split_space_around_constraint space c
              else [space])
          else spaces), point_in_rect px py s'.x s'.y s'.width s'.height := by
          rw [if_pos hty]
          by_cases hov : rectangles_overlap s.x s.y s.width s.height
              c.x c.y c.width c.height = true
          · obtain ⟨s', hs', hin'⟩ := split_covers s c px py hin hpc
            exact ⟨s', List.mem_flatMap.mpr ⟨s, hs, by rw [if_pos hov]; exact hs'⟩, hin'⟩
          · exact ⟨s, List.mem_flatMap.mpr ⟨s, hs,
              by rw [if_neg hov]; exact List.mem_singleton_self _⟩, hin⟩
        rcases ih _ px py hcov with hl | hr
        · exact Or.inl (by
            obtain ⟨c', hc', hprop⟩ := hl
            exact ⟨c', List.mem_cons_of_mem c hc', hprop⟩)
        · exact Or.inr hr
    · rw [if_neg hty]
      rcases ih spaces px py h with hl | hr
      · exact Or.inl (by
          obtain ⟨c', hc', hprop⟩ := hl
          exact ⟨c', List.mem_cons_of_mem c hc', hprop⟩)
      · exact Or.inr hr

/-- The quality-evaluation pass keeps every rectangle unchanged. -/
theorem evaluate_space_quality_rect (cs : List Constraint) (s : Space) :
    (evaluate_space_quality cs s).x = s.x ∧ (evaluate_space_quality cs s).y = s.y ∧
    (evaluate_space_quality cs s).width = s.width ∧
    (evaluate_space_quality cs s).height = s.height := by
  simp [evaluate_space_quality]

/-- Unfolding of `usable_spaces_before_filter` into its two stages. -/
theorem usable_spaces_before_filter_def (room_width room_length : ℚ)
    (constraints : List Constraint) :
    usable_spaces_before_filter room_width room_length constraints =
      (remove_unusable_spaces
          [⟨0, 0, room_width, room_length, room_width * room_length, "excellent"⟩]
          constraints).map (evaluate_space_quality constraints) := rfl

/-- Claim C2 (amended): before the 0.5 m² filter, every point of the room is
covered by some unusable-area constraint or by some usable space. -/
theorem C2_coverage_before_filter (room_width room_length : ℚ)
    (constraints : List Constraint) (px py : ℚ)
    (hw : 0 < room_width) (hl : 0 < room_length)
    (hp : point_in_rect px py 0 0 room_width room_length) :
    (∃ c ∈ constraints, c.type = "unusable_area" ∧
      point_in_rect px py c.x c.y c.width c.height) ∨
    (∃ s ∈ usable_spaces_before_filter room_width room_length constraints,
      point_in_rect px py s.x s.y s.width s.height) := by
  have hinit : ∃ s ∈ ([⟨0, 0, room_width, room_length,
      room_width * room_length, "excellent"⟩] : List Space),
      point_in_rect px py s.x s.y s.width s.height :=
    ⟨_, List.mem_singleton_self _, by simpa [point_in_rect] using hp⟩
  rcases remove_unusable_covers constraints _ px py hinit with hl' | hr
  · exact Or.inl hl'
  · obtain ⟨s, hs, hin⟩ := hr
    refine Or.inr ⟨evaluate_space_quality constraints s, ?_, ?_⟩
    · rw [usable_spaces_before_filter_def]
      exact List.mem_map.mpr ⟨s, hs, rfl⟩
    · obtain ⟨e1, e2, e3, e4⟩ := evaluate_space_quality_rect constraints s
      rw [e1, e2, e3, e4]
      exact hin

/-- Witness for the amended C2 at a 1×1 room with no constraints and the
centre point. -/
theorem C2_coverage_before_filter_witness :
    (∃ c ∈ ([] : List Constraint), c.type = "unusable_area" ∧
      point_in_rect (1/2) (1/2) c.x c.y c.width c.height) ∨
    (∃ s ∈ usable_spaces_before_filter 1 1 [], point_in_rect (1/2) (1/2)
      s.x s.y s.width s.height) :=
  C2_coverage_before_filter 1 1 [] (1/2) (1/2) (by norm_num) (by norm_num)
    (by norm_num [point_in_rect])

/-- Claim C2 counterexample: with the 0.5 m² filter applied (the function's
actual return value), coverage fails — a 1×1 room with a 0.9-wide unusable
strip leaves only a 0.1 m² space, which is discarded, so the point
(0.95, 0.5) is covered by nothing. -/
theorem C2_coverage_after_filter_fails :
    identify_usable_spaces 1 1 [⟨"unusable_area", 0, 0, 9/10, 1, "No furniture zone"⟩] = [] ∧
    point_in_rect (19/20) (1/2) 0 0 1 1 ∧
    ¬ point_in_rect (19/20) (1/2) 0 0 (9/10) 1 := by
  refine ⟨?_, by norm_num [point_in_rect], by norm_num [point_in_rect]⟩
  norm_num [identify_usable_spaces, usable_spaces_before_filter,
    remove_unusable_spaces, split_space_around_constraint,
    evaluate_space_quality, rectangles_overlap]

/-- Rectangle containment is reflexive. -/
theorem rect_contains_refl (c : Constraint) : rect_contains c c :=
  ⟨le_refl _, le_refl _, le_refl _, le_refl _⟩

/-- Rectangle containment is transitive. -/
theorem rect_contains_trans {a b c : Constraint} (h1 : rect_contains a b)
    (h2 : rect_contains b c) : rect_contains a c := by
  obtain ⟨p1, p2, p3, p4⟩ := h1
  obtain ⟨q1, q2, q3, q4⟩ := h2
  exact ⟨by linarith, by linarith, by linarith, by linarith⟩

/-- The bounding box built by the merge sweep contains both constituents. -/
theorem bbox_contains (current c : Constraint) :
    rect_contains
      { current with
          x := min current.x c.x
          y := min current.y c.y
          width := max (current.x + current.width) (c.x + c.width) - min current.x c.x
          height := max (current.y + current.height) (c.y + c.height) - min current.y c.y }
      current ∧
    rect_contains
      { current with
          x := min current.x c.x
          y := min current.y c.y
          width := max (current.x + current.width) (c.x + c.width) - min current.x c.x
          height := max (current.y + current.height) (c.y + c.height) - min current.y c.y }
      c := by
  unfold rect_contains
  simp only
  refine ⟨⟨min_le_left _ _, min_le_left _ _, ?_, ?_⟩,
    ⟨min_le_right _ _, min_le_right _ _, ?_, ?_⟩⟩ <;>
    · rw [add_sub_cancel]
      first
        | exact le_max_left _ _
        | exact le_max_right _ _

/-- Every constraint fed into the merge sweep ends up contained in one of
the emitted constraints of the same type. -/
theorem merge_sweep_covers : ∀ (rest : List Constraint) (current target : Constraint),
    (rect_contains current target ∨ target ∈ rest) →
    (∀ z ∈ rest, z.type = current.type) →
    ∃ m ∈ merge_sweep current rest, rect_contains m target ∧ m.type = current.type := by
  intro rest
  induction rest with
  | nil =>
    intro current target h htype
    rcases h with h | h
    · exact ⟨current, List.mem_singleton_self _, h, rfl⟩
    · cases h
  | cons c rest2 ih =>
    intro current target h htype
    simp only [merge_sweep]
    split
    · -- overlapping: continue with the bounding box
      have hb := bbox_contains current c
      have htype2 : ∀ z ∈ rest2,
          z.type = ({ current with
            x := min current.x c.x
            y := min current.y c.y
            width := max (current.x + current.width) (c.x + c.width) - min current.x c.x
            height := max (current.y + current.height) (c.y + c.height) -
              min current.y c.y } : Constraint).type := by
        intro z hz
        exact htype z (List.mem_cons_of_mem c hz)
      have hcase : rect_contains
          { current with
            x := min current.x c.x
            y := min current.y c.y
            width := max (current.x + current.width) (c.x + c.width) - min current.x c.x
            height := max (current.y + current.height) (c.y + c.height) -
              min current.y c.y } target ∨ target ∈ rest2 := by
        rcases h with h | h
        · exact Or.inl (rect_contains_trans hb.1 h)
        · rcases List.mem_cons.mp h with h | h
          · exact Or.inl (h ▸ hb.2)
          · exact Or.inr h
      obtain ⟨m, hm, hc2, hty2⟩ := ih _ target hcase htype2
      exact ⟨m, hm, hc2, hty2⟩
    · -- not overlapping: emit current, restart from c
      rcases h with h | h
      · exact ⟨current, List.mem_cons_self _ _, h, rfl⟩
      · have hcty : c.type = current.type := htype c (List.mem_cons_self c rest2)
        have htype2 : ∀ z ∈ rest2, z.type = c.type := by
          intro z hz
          rw [hcty]
          exact htype z (List.mem_cons_of_mem c hz)
        rcases List.mem_cons.mp h with h | h
        · obtain ⟨m, hm, hc2, hty2⟩ :=
            ih c target (Or.inl (h ▸ rect_contains_refl c)) htype2
          exact ⟨m, List.mem_cons_of_mem current hm, hc2, hty2.trans hcty⟩
        · obtain ⟨m, hm, hc2, hty2⟩ := ih c target (Or.inr h) htype2
          exact ⟨m, List.mem_cons_of_mem current hm, hc2, hty2.trans hcty⟩

/-- Membership in the stable-insert helper. -/
theorem mem_insertSorted (lt : α → α → Bool) (x a : α) :
    ∀ l, a ∈ insertSorted lt x l ↔ a = x ∨ a ∈ l := by
  intro l
  induction l with
  | nil => simp [insertSorted]
  | cons y ys ih =>
    simp only [insertSorted]
    split
    · simp [List.mem_cons]
    · simp only [List.mem_cons, ih]
      tauto

/-- The stable sort is a permutation as far as membership is concerned. -/
theorem mem_pySorted (lt : α → α → Bool) (a : α) (l : List α) :
    a ∈ pySorted lt l ↔ a ∈ l := by
  suffices h : ∀ (l : List α) (acc : List α),
      a ∈ l.foldl (fun acc x => insertSorted lt x acc) acc ↔ a ∈ acc ∨ a ∈ l by
    simpa [pySorted] using h l []
  intro l
  induction l with
  | nil => simp
  | cons x xs ih =>
    intro acc
    simp only [List.foldl_cons, ih, mem_insertSorted, List.mem_cons]
    tauto

/-- Accumulated strings survive the type-collection fold. -/
theorem group_types_foldl_mono : ∀ (l : List Constraint) (acc : List String)
    (x : String), x ∈ acc →
    x ∈ l.foldl (fun acc c => if acc.contains c.type then acc else acc ++ [c.type]) acc := by
  intro l
  induction l with
  | nil => intro acc x hx; simpa using hx
  | cons c cs ih =>
    intro acc x hx
    simp only [List.foldl_cons]
    apply ih
    split
    · exact hx
    · exact List.mem_append_left _ hx

/-- Every constraint's type appears in the collected type list. -/
theorem mem_group_types_foldl : ∀ (l : List Constraint) (acc : List String)
    (c : Constraint), c ∈ l →
    c.type ∈ l.foldl (fun acc c => if acc.contains c.type then acc else acc ++ [c.type]) acc := by
  intro l
  induction l with
  | nil => intro acc c hc; cases hc
  | cons c' cs ih =>
    intro acc c hc
    simp only [List.foldl_cons]
    rcases List.mem_cons.mp hc with h | h
    · subst h
      apply group_types_foldl_mono
      split
      · rename_i hcont
        exact (List.elem_iff).mp hcont
      · exact List.mem_append_right _ (List.mem_singleton_self _)
    · exact ih _ c h

/-- Claim C6 (amended): `merge_overlapping_constraints` is a single sorted
sweep per type group merging consecutively-overlapping constraints into
bounding boxes; every input constraint ends up contained in some output
constraint of its own kind (the sweep is not iterated to a fixed point, so
outputs of the same kind may still overlap — see the counterexample). -/
theorem C6_merge_covers (constraints : List Constraint) :
    constraints.Forall (fun c => ∃ m ∈ merge_overlapping_constraints constraints,
      m.type = c.type ∧ rect_contains m c) := by
  rw [List.forall_iff_forall_mem]
  intro c hc
  have hty : c.type ∈ group_types constraints := mem_group_types_foldl _ [] c hc
  have hgroup : c ∈ constraints.filter (fun z => z.type == c.type) :=
    List.mem_filter.mpr ⟨hc, by simp⟩
  have hsorted : c ∈ pySorted constraint_sort_lt
      (constraints.filter (fun z => z.type == c.type)) :=
    (mem_pySorted _ _ _).mpr hgroup
  have htyall : ∀ z ∈ pySorted constraint_sort_lt
      (constraints.filter (fun z => z.type == c.type)), z.type = c.type := by
    intro z hz
    have hz2 := (mem_pySorted _ _ _).mp hz
    have := (List.mem_filter.mp hz2).2
    simpa using this
  cases hsort : pySorted constraint_sort_lt
      (constraints.filter (fun z => z.type == c.type)) with
  | nil => rw [hsort] at hsorted; cases hsorted
  | cons g rest =>
    rw [hsort] at hsorted
    have hgty : g.type = c.type := htyall g (by rw [hsort]; exact List.mem_cons_self g rest)
    have htyrest : ∀ z ∈ rest, z.type = g.type := by
      intro z hz
      rw [hgty]
      exact htyall z (by rw [hsort]; exact List.mem_cons_of_mem g hz)
    have hcase : rect_contains g c ∨ c ∈ rest := by
      rcases List.mem_cons.mp hsorted with h | h
      · exact Or.inl (h ▸ rect_contains_refl g)
      · exact Or.inr h
    obtain ⟨m, hm, hcont, hmty⟩ := merge_sweep_covers rest g c hcase htyrest
    refine ⟨m, ?_, hmty.trans hgty, hcont⟩
    unfold merge_overlapping_constraints
    apply List.mem_flatMap.mpr
    refine ⟨c.type, hty, ?_⟩
    simp only [hsort]
    exact hm

/-- Claim C6 counterexample: the sweep is not run to a fixed point.  With
three same-kind constraints A(0,0,1.2,1), B(1,2,1,1), C(1.5,0,1,3), A is
emitted before B and C merge into a bounding box that grows back over A, so
the output contains two overlapping unusable-area constraints. -/
theorem C6_merge_output_can_overlap :
    merge_overlapping_constraints
      [⟨"unusable_area", 0, 0, 6/5, 1, "a"⟩, ⟨"unusable_area", 1, 2, 1, 1, "b"⟩,
       ⟨"unusable_area", 3/2, 0, 1, 3, "c"⟩] =
      [⟨"unusable_area", 0, 0, 6/5, 1, "a"⟩, ⟨"unusable_area", 1, 0, 3/2, 3, "b"⟩] ∧
    rectangles_overlap 0 0 (6/5) 1 1 0 (3/2) 3 = true := by
  constructor
  · simp [merge_overlapping_constraints, group_types, pySorted, insertSorted,
      constraint_sort_lt, List.filter, List.flatMap]
    norm_num [merge_sweep, rectangles_overlap, min_def, max_def]
  · norm_num [rectangles_overlap]

/-- The arctangent of 1/10 lies strictly between 0 and π/18. -/
theorem arctan_tenth_bounds :
    0 < Real.arctan (1/10) ∧ Real.arctan (1/10) < Real.pi / 18 := by
  have hpi := Real.pi_pos
  constructor
  · have := Real.arctan_strictMono (show (0:ℝ) < 1/10 by norm_num)
    simpa [Real.arctan_zero] using this
  · have h3 : (0:ℝ) < Real.pi / 18 := by positivity
    have h4 : Real.pi / 18 < Real.pi / 2 := by linarith
    have h5 := Real.lt_tan h3 h4
    have h6 : (1/10 : ℝ) < Real.pi / 18 := by linarith [Real.pi_gt_three]
    calc Real.arctan (1/10) < Real.arctan (Real.tan (Real.pi / 18)) :=
          Real.arctan_strictMono (by linarith)
      _ = Real.pi / 18 := Real.arctan_tan (by linarith) h4

/-- In degrees, `arctan(1/10)` lies strictly between 0 and 10. -/
theorem d10_bounds :
    0 < Real.arctan (1/10) * 180 / Real.pi ∧
    Real.arctan (1/10) * 180 / Real.pi < 10 := by
  have hpi := Real.pi_pos
  obtain ⟨h1, h2⟩ := arctan_tenth_bounds
  constructor
  · positivity
  · rw [div_lt_iff hpi]
    nlinarith

/-- Python float modulo by 360 acts as the identity on `[0, 360)`. -/
theorem pymod360_eq_self {a : ℝ} (h0 : 0 ≤ a) (h1 : a < 360) : pymod360 a = a := by
  unfold pymod360
  have : ⌊a / 360⌋ = 0 := by
    apply Int.floor_eq_zero_iff.mpr
    constructor
    · positivity
    · rw [div_lt_one (by norm_num : (0:ℝ) < 360)]; linarith
  rw [this]
  ring

/-- Python float modulo by 360 adds 360 on `[-360, 0)`. -/
theorem pymod360_eq_add {a : ℝ} (h0 : -360 ≤ a) (h1 : a < 0) :
    pymod360 a = a + 360 := by
  unfold pymod360
  have h360 : (0:ℝ) < 360 := by norm_num
  have hfl : ⌊a / 360⌋ = -1 := by
    rw [Int.floor_eq_iff]
    constructor
    · push_cast
      rw [le_div_iff h360]
      linarith
    · push_cast
      rw [div_lt_iff h360]
      linarith
  rw [hfl]
  push_cast
  ring

/-- Bearing of the offset (dx, dy) = (30, 3): `arctan(1/10)` in degrees. -/
theorem bearing_30_3 : bearing_degrees 3 30 =
    Real.arctan (1/10) * 180 / Real.pi := by
  obtain ⟨h0, h1⟩ := d10_bounds
  unfold bearing_degrees pyatan2
  rw [if_pos (by push_cast; norm_num : (0:ℝ) < ((30:ℚ):ℝ))]
  have harg : ((3:ℚ):ℝ) / ((30:ℚ):ℝ) = 1/10 := by push_cast; norm_num
  rw [harg]
  exact pymod360_eq_self (by linarith) (by linarith)

/-- Bearing of the offset (dx, dy) = (30, −3): `360 − arctan(1/10)` degrees,
i.e. just below 360. -/
theorem bearing_30_neg3 : bearing_degrees (-3) 30 =
    360 - Real.arctan (1/10) * 180 / Real.pi := by
  obtain ⟨h0, h1⟩ := d10_bounds
  unfold bearing_degrees pyatan2
  rw [if_pos (by push_cast; norm_num : (0:ℝ) < ((30:ℚ):ℝ))]
  have harg : (((-3:ℚ)):ℝ) / ((30:ℚ):ℝ) = -(1/10) := by push_cast; norm_num
  rw [harg, Real.arctan_neg]
  have heq : -Real.arctan (1/10) * 180 / Real.pi =
      -(Real.arctan (1/10) * 180 / Real.pi) := by ring
  rw [heq, pymod360_eq_add (by linarith) (by linarith)]
  ring

/-- Bearing of the offset (dx, dy) = (−30, 3): `180 − arctan(1/10)` degrees. -/
theorem bearing_neg30_3 : bearing_degrees 3 (-30) =
    180 - Real.arctan (1/10) * 180 / Real.pi := by
  obtain ⟨h0, h1⟩ := d10_bounds
  have hpi := Real.pi_pos
  unfold bearing_degrees pyatan2
  rw [if_neg (by push_cast; norm_num : ¬ (0:ℝ) < (((-30:ℚ)):ℝ))]
  rw [if_pos (by constructor <;> [push_cast; push_cast] <;> norm_num :
    (((-30:ℚ)):ℝ) < 0 ∧ (0:ℝ) ≤ ((3:ℚ):ℝ))]
  have harg : ((3:ℚ):ℝ) / (((-30:ℚ)):ℝ) = -(1/10) := by push_cast; norm_num
  rw [harg, Real.arctan_neg]
  have heq : (-Real.arctan (1/10) + Real.pi) * 180 / Real.pi =
      180 - Real.arctan (1/10) * 180 / Real.pi := by
    field_simp
    ring
  rw [heq, pymod360_eq_self (by linarith) (by linarith)]

/-- Bearing of the offset (dx, dy) = (−30, −3): `180 + arctan(1/10)`
degrees. -/
theorem bearing_neg30_neg3 : bearing_degrees (-3) (-30) =
    180 + Real.arctan (1/10) * 180 / Real.pi := by
  obtain ⟨h0, h1⟩ := d10_bounds
  have hpi := Real.pi_pos
  unfold bearing_degrees pyatan2
  rw [if_neg (by push_cast; norm_num : ¬ (0:ℝ) < (((-30:ℚ)):ℝ))]
  rw [if_neg (by push_cast; norm_num :
    ¬ ((((-30:ℚ)):ℝ) < 0 ∧ (0:ℝ) ≤ (((-3:ℚ)):ℝ)))]
  rw [if_pos (by constructor <;> push_cast <;> norm_num :
    (((-30:ℚ)):ℝ) < 0 ∧ (((-3:ℚ)):ℝ) < 0)]
  have harg : (((-3:ℚ)):ℝ) / (((-30:ℚ)):ℝ) = 1/10 := by push_cast; norm_num
  rw [harg]
  have heq : (Real.arctan (1/10) - Real.pi) * 180 / Real.pi =
      Real.arctan (1/10) * 180 / Real.pi - 180 := by
    field_simp
    ring
  rw [heq, pymod360_eq_add (by linarith) (by linarith)]
  ring

/-- A bearing strictly between 0 and 10 degrees is flagged as aligned. -/
theorem aligned_small : is_aligned_deg (Real.arctan (1/10) * 180 / Real.pi) := by
  obtain ⟨h0, h1⟩ := d10_bounds
  left
  rw [sub_zero, abs_of_pos h0]
  exact h1

/-- A bearing of `180 − arctan(1/10)` degrees is flagged as aligned. -/
theorem aligned_180_minus : is_aligned_deg (180 - Real.arctan (1/10) * 180 / Real.pi) := by
  obtain ⟨h0, h1⟩ := d10_bounds
  right; right; left
  have heq : (180:ℝ) - Real.arctan (1/10) * 180 / Real.pi - 180 =
      -(Real.arctan (1/10) * 180 / Real.pi) := by ring
  rw [heq, abs_neg, abs_of_pos h0]
  exact h1

/-- A bearing of `180 + arctan(1/10)` degrees is flagged as aligned. -/
theorem aligned_180_plus : is_aligned_deg (180 + Real.arctan (1/10) * 180 / Real.pi) := by
  obtain ⟨h0, h1⟩ := d10_bounds
  right; right; left
  have heq : (180:ℝ) + Real.arctan (1/10) * 180 / Real.pi - 180 =
      Real.arctan (1/10) * 180 / Real.pi := by ring
  rw [heq, abs_of_pos h0]
  exact h1

/-- A bearing of `360 − arctan(1/10)` degrees, though within 10 degrees of
0 modulo 360, is NOT flagged by the code's alignment test. -/
theorem not_aligned_wraparound :
    ¬ is_aligned_deg (360 - Real.arctan (1/10) * 180 / Real.pi) := by
  obtain ⟨h0, h1⟩ := d10_bounds
  intro h
  rcases h with h | h | h | h <;> (rw [abs_lt] at h; obtain ⟨ha, hb⟩ := h) <;> linarith

/-- The wrapped bearing is within 10 degrees of the 0-degree axis when the
distance is measured modulo 360. -/
theorem wraparound_within10 :
    within10_of_axis_mod360 (360 - Real.arctan (1/10) * 180 / Real.pi) := by
  obtain ⟨h0, h1⟩ := d10_bounds
  left
  have habs : |360 - Real.arctan (1/10) * 180 / Real.pi - 0| =
      360 - Real.arctan (1/10) * 180 / Real.pi := by
    rw [sub_zero, abs_of_pos (by linarith)]
  rw [habs]
  have : (360:ℝ) - (360 - Real.arctan (1/10) * 180 / Real.pi) =
      Real.arctan (1/10) * 180 / Real.pi := by ring
  rw [this]
  exact lt_of_le_of_lt (min_le_right _ _) h1

/-- The (30, 3) candidate is flagged as aligned. -/
theorem is_aligned_b1 : is_aligned_deg (bearing_degrees 3 30) :=
  bearing_30_3 ▸ aligned_small

/-- The (30, −3) candidate, at bearing just below 360, is NOT flagged. -/
theorem not_aligned_b2 : ¬ is_aligned_deg (bearing_degrees (-3) 30) :=
  bearing_30_neg3 ▸ not_aligned_wraparound

/-- The (−30, 3) candidate is flagged as aligned. -/
theorem is_aligned_b3 : is_aligned_deg (bearing_degrees 3 (-30)) :=
  bearing_neg30_3 ▸ aligned_180_minus

/-- The (−30, −3) candidate is flagged as aligned. -/
theorem is_aligned_b4 : is_aligned_deg (bearing_degrees (-3) (-30)) :=
  bearing_neg30_neg3 ▸ aligned_180_plus

/-- Claim C7 (code_bug evidence): in a 100×10 room with one door centred at
(50, 5), the only emitted command position is (80, 2), whose bearing from
the door centre is `360 − arctan(1/10)·180/π ≈ 354.3°`.  That bearing is
within 10 degrees of the 0° axis modulo 360, yet the code's
`abs(angle - a) < 10` test misses the wrap-around and emits it instead of
discarding it. -/
theorem C7_alignment_misses_wraparound :
    ∃ cp, identify_command_positions [⟨"door", 45, 4, 10, 2⟩] 100 10 = [cp] ∧
      cp.x = 80 ∧ cp.y = 2 ∧ cp.door = ⟨"door", 45, 4, 10, 2⟩ ∧
      ¬ is_aligned_deg (bearing_degrees (cp.y - (cp.door.y + cp.door.height / 2))
        (cp.x - (cp.door.x + cp.door.width / 2))) ∧
      within10_of_axis_mod360 (bearing_degrees (cp.y - (cp.door.y + cp.door.height / 2))
        (cp.x - (cp.door.x + cp.door.width / 2))) := by
  have harg : bearing_degrees ((2:ℚ) - (4 + 2 / 2)) ((80:ℚ) - (45 + 10 / 2)) =
      bearing_degrees (-3) 30 := by
    congr 1 <;> norm_num
  refine ⟨⟨80, 2, "good", false, ⟨"door", 45, 4, 10, 2⟩, ["bed", "desk"]⟩,
    ?_, rfl, rfl, rfl, ?_, ?_⟩
  · simp only [identify_command_positions]
    simp [List.filter, List.flatMap, List.filterMap, check_wall_support]
    norm_num [is_aligned_b1, not_aligned_b2, is_aligned_b3, is_aligned_b4]
    norm_num [List.filterMap, is_aligned_b1, not_aligned_b2, is_aligned_b3,
      is_aligned_b4]
    simp
  · show ¬ is_aligned_deg (bearing_degrees ((2:ℚ) - (4 + 2 / 2)) ((80:ℚ) - (45 + 10 / 2)))
    rw [harg]
    exact not_aligned_b2
  · show within10_of_axis_mod360
      (bearing_degrees ((2:ℚ) - (4 + 2 / 2)) ((80:ℚ) - (45 + 10 / 2)))
    rw [harg, bearing_30_neg3]
    exact wraparound_within10

/-- Bearing of the offset (dx, dy) = (12, −12): 315 degrees. -/
theorem bearing_12_neg12 : bearing_degrees (-12) 12 = 315 := by
  have hpi := Real.pi_pos
  have hpine := Real.pi_ne_zero
  unfold bearing_degrees pyatan2
  rw [if_pos (by push_cast; norm_num : (0:ℝ) < ((12:ℚ):ℝ))]
  have harg : (((-12:ℚ)):ℝ) / ((12:ℚ):ℝ) = -1 := by push_cast; norm_num
  rw [harg]
  have harct : Real.arctan (-1) = -(Real.pi / 4) := by
    rw [show ((-1:ℝ)) = -(1:ℝ) by norm_num, Real.arctan_neg, Real.arctan_one]
  rw [harct]
  have hdeg : -(Real.pi / 4) * 180 / Real.pi = -45 := by
    field_simp
    ring
  rw [hdeg, pymod360_eq_add (by norm_num) (by norm_num)]
  norm_num

/-- Bearing of the offset (dx, dy) = (−12, −12): 225 degrees. -/
theorem bearing_neg12_neg12 : bearing_degrees (-12) (-12) = 225 := by
  have hpi := Real.pi_pos
  have hpine := Real.pi_ne_zero
  unfold bearing_degrees pyatan2
  rw [if_neg (by push_cast; norm_num : ¬ (0:ℝ) < (((-12:ℚ)):ℝ))]
  rw [if_neg (by push_cast; norm_num :
    ¬ ((((-12:ℚ)):ℝ) < 0 ∧ (0:ℝ) ≤ (((-12:ℚ)):ℝ)))]
  rw [if_pos (by constructor <;> push_cast <;> norm_num :
    (((-12:ℚ)):ℝ) < 0 ∧ (((-12:ℚ)):ℝ) < 0)]
  have harg : (((-12:ℚ)):ℝ) / (((-12:ℚ)):ℝ) = 1 := by push_cast; norm_num
  rw [harg, Real.arctan_one]
  have hdeg : (Real.pi / 4 - Real.pi) * 180 / Real.pi = -135 := by
    field_simp
    ring
  rw [hdeg, pymod360_eq_add (by norm_num) (by norm_num)]
  norm_num

/-- A 315-degree bearing is not flagged as aligned. -/
theorem not_aligned_315 : ¬ is_aligned_deg (315 : ℝ) := by
  intro h
  rcases h with h | h | h | h <;> (rw [abs_lt] at h; obtain ⟨ha, hb⟩ := h) <;> linarith

/-- A 225-degree bearing is not flagged as aligned. -/
theorem not_aligned_225 : ¬ is_aligned_deg (225 : ℝ) := by
  intro h
  rcases h with h | h | h | h <;> (rw [abs_lt] at h; obtain ⟨ha, hb⟩ := h) <;> linarith

/-- The (12, −12) candidate of the C1 room is not flagged. -/
theorem not_aligned_c1a : ¬ is_aligned_deg (bearing_degrees (-12) 12) :=
  bearing_12_neg12 ▸ not_aligned_315

/-- The (−12, −12) candidate of the C1 room is not flagged. -/
theorem not_aligned_c1b : ¬ is_aligned_deg (bearing_degrees (-12) (-12)) :=
  bearing_neg12_neg12 ▸ not_aligned_225

/-- Claim C1 (code_bug evidence): in a 40×40 room with a door on the south
wall (centre (20, 39)), `identify_command_positions` emits the two command
points (32, 27) and (8, 27); placing a single 20×20 bed through
`place_all_furniture` centres it on (32, 27), producing the placement
rectangle (22, 17, 20, 20) whose right edge 22 + 20 = 42 sticks out of the
40-wide room — `create_command_placement` performs no room-bounds check. -/
theorem C1_command_placement_escapes_room :
    identify_command_positions [⟨"door", 15, 38, 10, 2⟩] 40 40 =
      [⟨32, 27, "good", false, ⟨"door", 15, 38, 10, 2⟩, ["bed", "desk"]⟩,
       ⟨8, 27, "good", false, ⟨"door", 15, 38, 10, 2⟩, ["bed", "desk"]⟩] ∧
    (place_all_furniture
        { dimensions := ⟨40, 40⟩
          elements := [⟨"door", 15, 38, 10, 2⟩]
          command_positions :=
            [⟨32, 27, "good", false, ⟨"door", 15, 38, 10, 2⟩, ["bed", "desk"]⟩,
             ⟨8, 27, "good", false, ⟨"door", 15, 38, 10, 2⟩, ["bed", "desk"]⟩]
          usable_spaces := []
          energy_flow := ⟨[], [], []⟩
          bagua_map := [] }
        ⟨[("queen_bed", ⟨1, 20, 20, some "Queen Bed", none, none⟩)]⟩
        none none LayoutStrategy.optimal (fun _ => 0)).furniture_placements.map
      (fun p => (p.x, p.y, p.width, p.height)) = [(22, 17, 20, 20)] ∧
    ¬ ((22:ℚ) + 20 ≤ 40) := by
  refine ⟨?_, ?_, by norm_num⟩
  · simp only [identify_command_positions]
    simp [List.filter, List.flatMap, List.filterMap, check_wall_support]
    norm_num [not_aligned_c1a, not_aligned_c1b]
    norm_num [List.filterMap, not_aligned_c1a, not_aligned_c1b]
    simp
  · simp only [place_all_furniture]
    simp [extract_furniture_items, categorize_furniture, categorize_step,
      get_furniture_type,
      pyLower, pyIn, charsContain, run_command_loop, run_wall_loop,
      run_large_loop, run_small_loop, place_in_command_position,
      filter_suitable_positions, sort_command_positions, pySorted, insertSorted,
      quality_rank, command_try_positions, is_position_occupied,
      check_bad_placement, create_command_placement, check_for_bad_placements,
      List.filter, List.flatMap]
    norm_num [rectangles_overlap]

/-- The command candidate loop never touches placements, only appends
trade-offs. -/
theorem command_try_positions_mono (item : Item) (layout : Layout)
    (elements : List Element) (kua_group : Option KuaGroup) :
    ∀ ps, (command_try_positions item layout elements kua_group ps).2.furniture_placements =
        layout.furniture_placements ∧
      ∀ t ∈ layout.tradeoffs,
        t ∈ (command_try_positions item layout elements kua_group ps).2.tradeoffs := by
  intro ps
  induction ps with
  | nil => exact ⟨rfl, fun t ht => ht⟩
  | cons position rest ih =>
    simp only [command_try_positions]
    split
    · exact ih
    · split
      · exact ih
      · constructor
        · split <;> rfl
        · intro t ht
          split <;> (simp; tauto)

/-- Successful command placements carry the item's id. -/
theorem command_try_positions_item_id (item : Item) (layout : Layout)
    (elements : List Element) (kua_group : Option KuaGroup) :
    ∀ ps p, (command_try_positions item layout elements kua_group ps).1 = some p →
      p.item_id = item.id := by
  intro ps
  induction ps with
  | nil => intro p h; cases h
  | cons position rest ih =>
    intro p
    simp only [command_try_positions]
    split
    · exact ih p
    · split
      · exact ih p
      · intro h
        obtain rfl : create_command_placement position item kua_group = p :=
          Option.some.inj h
        rfl

/-- `place_in_command_position` never touches placements, only appends
trade-offs. -/
theorem place_in_command_position_mono (item : Item) (layout : Layout)
    (command_positions : List CommandPos) (elements : List Element)
    (kua_group : Option KuaGroup) :
    (place_in_command_position item layout command_positions elements
        kua_group).2.furniture_placements = layout.furniture_placements ∧
    ∀ t ∈ layout.tradeoffs, t ∈ (place_in_command_position item layout
        command_positions elements kua_group).2.tradeoffs := by
  simp only [place_in_command_position]
  split
  · exact ⟨rfl, fun t ht => ht⟩
  · exact command_try_positions_mono item layout elements kua_group _

/-- Successful `place_in_command_position` results carry the item's id. -/
theorem place_in_command_position_item_id (item : Item) (layout : Layout)
    (command_positions : List CommandPos) (elements : List Element)
    (kua_group : Option KuaGroup) (p : Placement) :
    (place_in_command_position item layout command_positions elements
        kua_group).1 = some p → p.item_id = item.id := by
  simp only [place_in_command_position]
  split
  · intro h; cases h
  · exact command_try_positions_item_id item layout elements kua_group _ p

/-- `place_against_wall` never touches placements, only appends
trade-offs. -/
theorem place_against_wall_mono (item : Item) (layout : Layout)
    (strategy : LayoutStrategy) (walls : List Element) (elements : List Element)
    (room_width room_length : ℚ) (kua_group : Option KuaGroup) (rnd : ℕ → ℚ) :
    (place_against_wall item layout strategy walls elements room_width room_length
        kua_group rnd).2.furniture_placements = layout.furniture_placements ∧
    ∀ t ∈ layout.tradeoffs, t ∈ (place_against_wall item layout strategy walls
        elements room_width room_length kua_group rnd).2.tradeoffs := by
  simp only [place_against_wall]
  repeat' split
  all_goals
    first
      | exact ⟨rfl, fun t ht => ht⟩
      | exact ⟨rfl, fun t ht => by simp; tauto⟩

/-- Successful `place_against_wall` results carry the item's id. -/
theorem place_against_wall_item_id (item : Item) (layout : Layout)
    (strategy : LayoutStrategy) (walls : List Element) (elements : List Element)
    (room_width room_length : ℚ) (kua_group : Option KuaGroup) (rnd : ℕ → ℚ)
    (p : Placement) :
    (place_against_wall item layout strategy walls elements room_width room_length
        kua_group rnd).1 = some p → p.item_id = item.id := by
  simp only [place_against_wall]
  repeat' split
  all_goals intro h
  all_goals
    first
      | (obtain rfl := Option.some.inj h; rfl)
      | cases h

/-- `place_with_energy_flow` never touches placements, only appends
trade-offs. -/
theorem place_with_energy_flow_mono (item : Item) (layout : Layout)
    (strategy : LayoutStrategy) (energy_flows : EnergyFlows)
    (elements : List Element) (room_width room_length : ℚ)
    (life_goal : Option String) :
    (place_with_energy_flow item layout strategy energy_flows elements room_width
        room_length life_goal).2.furniture_placements = layout.furniture_placements ∧
    ∀ t ∈ layout.tradeoffs, t ∈ (place_with_energy_flow item layout strategy
        energy_flows elements room_width room_length life_goal).2.tradeoffs := by
  simp only [place_with_energy_flow]
  repeat' split
  all_goals
    first
      | exact ⟨rfl, fun t ht => ht⟩
      | exact ⟨rfl, fun t ht => by simp; tauto⟩

/-- Successful `place_with_energy_flow` results carry the item's id. -/
theorem place_with_energy_flow_item_id (item : Item) (layout : Layout)
    (strategy : LayoutStrategy) (energy_flows : EnergyFlows)
    (elements : List Element) (room_width room_length : ℚ)
    (life_goal : Option String) (p : Placement) :
    (place_with_energy_flow item layout strategy energy_flows elements room_width
        room_length life_goal).1 = some p → p.item_id = item.id := by
  simp only [place_with_energy_flow]
  repeat' split
  all_goals intro h
  all_goals
    first
      | (obtain rfl := Option.some.inj h; rfl)
      | cases h

/-- `place_small_item` never touches placements, only appends trade-offs. -/
theorem place_small_item_mono (item : Item) (layout : Layout)
    (strategy : LayoutStrategy) (bagua_map : List (String × BaguaSector))
    (energy_flows : EnergyFlows) (elements : List Element)
    (room_width room_length : ℚ) (life_goal : Option String) :
    (place_small_item item layout strategy bagua_map energy_flows elements
        room_width room_length life_goal).2.furniture_placements =
      layout.furniture_placements ∧
    ∀ t ∈ layout.tradeoffs, t ∈ (place_small_item item layout strategy bagua_map
        energy_flows elements room_width room_length life_goal).2.tradeoffs := by
  simp only [place_small_item]
  repeat' split
  all_goals
    first
      | exact ⟨rfl, fun t ht => ht⟩
      | exact ⟨rfl, fun t ht => by simp; tauto⟩

/-- Successful `place_small_item` results carry the item's id. -/
theorem place_small_item_item_id (item : Item) (layout : Layout)
    (strategy : LayoutStrategy) (bagua_map : List (String × BaguaSector))
    (energy_flows : EnergyFlows) (elements : List Element)
    (room_width room_length : ℚ) (life_goal : Option String) (p : Placement) :
    (place_small_item item layout strategy bagua_map energy_flows elements
        room_width room_length life_goal).1 = some p → p.item_id = item.id := by
  simp only [place_small_item]
  repeat' split
  all_goals intro h
  all_goals
    first
      | (obtain rfl := Option.some.inj h; rfl)
      | cases h

/-- The general-placement space loop never touches placements, only appends
trade-offs; and when it fails it records the high-severity
`unable_to_place` trade-off for the item. -/
theorem general_try_spaces_spec (item : Item) (layout : Layout)
    (elements : List Element) (room_width room_length : ℚ) :
    ∀ spaces,
      ((general_try_spaces item layout elements room_width room_length
          spaces).2.furniture_placements = layout.furniture_placements ∧
        ∀ t ∈ layout.tradeoffs, t ∈ (general_try_spaces item layout elements
          room_width room_length spaces).2.tradeoffs) ∧
      ((general_try_spaces item layout elements room_width room_length
          spaces).1 = none →
        ∃ t ∈ (general_try_spaces item layout elements room_width room_length
          spaces).2.tradeoffs,
          t.item_id = item.id ∧ t.issue = "unable_to_place" ∧ t.severity = "high") ∧
      (∀ p, (general_try_spaces item layout elements room_width room_length
          spaces).1 = some p → p.item_id = item.id) := by
  intro spaces
  induction spaces with
  | nil =>
    refine ⟨⟨rfl, fun t ht => by simp [general_try_spaces]; exact Or.inl ht⟩, ?_, ?_⟩
    · intro _
      refine ⟨⟨item.id, "unable_to_place", "Not enough space to place " ++ item.name,
        "high", "Consider removing some furniture or using smaller pieces"⟩, ?_, rfl, rfl, rfl⟩
      simp [general_try_spaces]
    · intro p h
      cases h
  | cons space rest ih =>
    simp only [general_try_spaces]
    split
    · exact ih
    · split
      · exact ih
      · refine ⟨⟨rfl, fun t ht => by simp; tauto⟩, ?_, ?_⟩
        · intro h
          cases h
        · intro p h
          obtain rfl := Option.some.inj h
          rfl

/-- `place_furniture_general`: monotonicity, the failure trade-off, and the
item id of successful placements. -/
theorem place_furniture_general_spec (item : Item) (layout : Layout)
    (strategy : LayoutStrategy) (usable_spaces : List Space)
    (elements : List Element) (room_width room_length : ℚ) :
    ((place_furniture_general item layout strategy usable_spaces elements
        room_width room_length).2.furniture_placements = layout.furniture_placements ∧
      ∀ t ∈ layout.tradeoffs, t ∈ (place_furniture_general item layout strategy
        usable_spaces elements room_width room_length).2.tradeoffs) ∧
    ((place_furniture_general item layout strategy usable_spaces elements
        room_width room_length).1 = none →
      ∃ t ∈ (place_furniture_general item layout strategy usable_spaces elements
        room_width room_length).2.tradeoffs,
        t.item_id = item.id ∧ t.issue = "unable_to_place" ∧ t.severity = "high") ∧
    (∀ p, (place_furniture_general item layout strategy usable_spaces elements
        room_width room_length).1 = some p → p.item_id = item.id) :=
  general_try_spaces_spec item layout elements room_width room_length _

/-- `try_alternative_placement` never touches placements, only appends
trade-offs; successful placements carry the item's id. -/
theorem try_alternative_placement_spec (item : Item) (layout : Layout)
    (room_width room_length : ℚ) :
    ((try_alternative_placement item layout room_width
        room_length).2.furniture_placements = layout.furniture_placements ∧
      ∀ t ∈ layout.tradeoffs, t ∈ (try_alternative_placement item layout
        room_width room_length).2.tradeoffs) ∧
    (∀ p, (try_alternative_placement item layout room_width room_length).1 =
        some p → p.item_id = item.id) := by
  simp only [try_alternative_placement]
  split
  · exact ⟨⟨rfl, fun t ht => ht⟩, fun p h => by cases h⟩
  · refine ⟨⟨rfl, fun t ht => by simp; tauto⟩, fun p h => ?_⟩
    obtain rfl := Option.some.inj h
    rfl

/-- The relation `layout_extends` is reflexive. -/
theorem layout_extends_refl (layout : Layout) : layout_extends layout layout :=
  ⟨fun _ ht => ht, fun _ hp => hp⟩

/-- The relation `layout_extends` is transitive. -/
theorem layout_extends_trans {a b c : Layout} (h1 : layout_extends a b)
    (h2 : layout_extends b c) : layout_extends a c :=
  ⟨fun t ht => h2.1 t (h1.1 t ht), fun p hp => h2.2 p (h1.2 p hp)⟩

/-- A stage that keeps the placements unchanged and only appends trade-offs
extends the layout. -/
theorem extends_of_mono {layout r : Layout}
    (hp : r.furniture_placements = layout.furniture_placements)
    (ht : ∀ t ∈ layout.tradeoffs, t ∈ r.tradeoffs) : layout_extends layout r :=
  ⟨ht, fun p hmem => by rw [hp]; exact hmem⟩

/-- Appending a placement preserves `layout_extends`. -/
theorem layout_extends_append {base ext : Layout} (p : Placement)
    (h : layout_extends base ext) :
    layout_extends base
      { ext with furniture_placements := ext.furniture_placements ++ [p] } :=
  ⟨h.1, fun q hq => by simp only [List.mem_append]; exact Or.inl (h.2 q hq)⟩

/-- The command loop only appends placements and trade-offs. -/
theorem run_command_loop_extends (strategy : LayoutStrategy)
    (command_positions : List CommandPos) (elements : List Element)
    (kua_group : Option KuaGroup) (usable_spaces : List Space)
    (room_width room_length : ℚ) :
    ∀ items layout, layout_extends layout
      (run_command_loop strategy command_positions elements kua_group usable_spaces
        room_width room_length items layout) := by
  intro items
  induction items with
  | nil =>
    intro layout
    simp only [run_command_loop]
    exact layout_extends_refl layout
  | cons item rest ih =>
    intro layout
    simp only [run_command_loop]
    refine layout_extends_trans ?_ (ih _)
    have e1 : layout_extends layout
        (place_in_command_position item layout command_positions elements
          kua_group).2 :=
      extends_of_mono (place_in_command_position_mono item layout command_positions
        elements kua_group).1 (place_in_command_position_mono item layout
        command_positions elements kua_group).2
    have e2 : layout_extends
        (place_in_command_position item layout command_positions elements kua_group).2
        (place_furniture_general item (place_in_command_position item layout
            command_positions elements kua_group).2 strategy usable_spaces elements
          room_width room_length).2 :=
      extends_of_mono (place_furniture_general_spec item _ strategy usable_spaces
        elements room_width room_length).1.1 (place_furniture_general_spec item _
        strategy usable_spaces elements room_width room_length).1.2
    have eA1 : layout_extends
        (place_in_command_position item layout command_positions elements kua_group).2
        (try_alternative_placement item (place_in_command_position item layout
            command_positions elements kua_group).2 room_width room_length).2 :=
      extends_of_mono (try_alternative_placement_spec item _ room_width
        room_length).1.1 (try_alternative_placement_spec item _ room_width
        room_length).1.2
    have eA2 : layout_extends
        (place_furniture_general item (place_in_command_position item layout
            command_positions elements kua_group).2 strategy usable_spaces elements
          room_width room_length).2
        (try_alternative_placement item (place_furniture_general item
            (place_in_command_position item layout command_positions elements
              kua_group).2 strategy usable_spaces elements room_width
            room_length).2 room_width room_length).2 :=
      extends_of_mono (try_alternative_placement_spec item _ room_width
        room_length).1.1 (try_alternative_placement_spec item _ room_width
        room_length).1.2
    rcases h1 : (place_in_command_position item layout command_positions elements
        kua_group).1 with _ | p
    · cases strategy with
      | optimal =>
        have hd1 : decide (LayoutStrategy.optimal = LayoutStrategy.optimal) =
            true := by decide
        have hd2 : decide (LayoutStrategy.optimal =
            LayoutStrategy.space_conscious) = false := by decide
        simp only [h1, Option.isNone_none, Option.isNone_some, reduceCtorEq, decide_True, decide_False, Bool.not_true, Bool.not_false, Bool.true_and, Bool.false_and, Bool.and_true, Bool.and_false, Bool.false_eq_true, eq_self_iff_true, if_true, if_false]
        exact e1
      | space_conscious =>
        have hd1 : decide (LayoutStrategy.space_conscious =
            LayoutStrategy.optimal) = false := by decide
        have hd2 : decide (LayoutStrategy.space_conscious =
            LayoutStrategy.space_conscious) = true := by decide
        simp only [h1, Option.isNone_none, Option.isNone_some, reduceCtorEq, decide_True, decide_False, Bool.not_true, Bool.not_false, Bool.true_and, Bool.false_and, Bool.and_true, Bool.and_false, Bool.false_eq_true, eq_self_iff_true, if_true, if_false]
        rcases h2 : (place_furniture_general item (place_in_command_position item
            layout command_positions elements kua_group).2
            LayoutStrategy.space_conscious usable_spaces elements room_width
            room_length).1 with _ | p
        · simp only [h2, Option.isNone_none, Option.isNone_some, reduceCtorEq, decide_True, decide_False, Bool.not_true, Bool.not_false, Bool.true_and, Bool.false_and, Bool.and_true, Bool.and_false, Bool.false_eq_true, eq_self_iff_true, if_true, if_false]
          rcases h3 : (try_alternative_placement item (place_furniture_general
              item (place_in_command_position item layout command_positions
                elements kua_group).2 LayoutStrategy.space_conscious usable_spaces
              elements room_width room_length).2 room_width room_length).1
            with _ | p
          · simp only [h3, Option.isNone_none, Option.isNone_some, reduceCtorEq, decide_True, decide_False, Bool.not_true, Bool.not_false, Bool.true_and, Bool.false_and, Bool.and_true, Bool.and_false, Bool.false_eq_true, eq_self_iff_true, if_true, if_false]
            exact layout_extends_trans (layout_extends_trans e1 e2) eA2
          · simp only [h3, Option.isNone_none, Option.isNone_some, reduceCtorEq, decide_True, decide_False, Bool.not_true, Bool.not_false, Bool.true_and, Bool.false_and, Bool.and_true, Bool.and_false, Bool.false_eq_true, eq_self_iff_true, if_true, if_false]
            exact layout_extends_append _
              (layout_extends_trans (layout_extends_trans e1 e2) eA2)
        · simp only [h2, Option.isNone_none, Option.isNone_some, reduceCtorEq, decide_True, decide_False, Bool.not_true, Bool.not_false, Bool.true_and, Bool.false_and, Bool.and_true, Bool.and_false, Bool.false_eq_true, eq_self_iff_true, if_true, if_false]
          exact layout_extends_append _ (layout_extends_trans e1 e2)
      | life_goal =>
        have hd1 : decide (LayoutStrategy.life_goal = LayoutStrategy.optimal) =
            false := by decide
        have hd2 : decide (LayoutStrategy.life_goal =
            LayoutStrategy.space_conscious) = false := by decide
        simp only [h1, Option.isNone_none, Option.isNone_some, reduceCtorEq, decide_True, decide_False, Bool.not_true, Bool.not_false, Bool.true_and, Bool.false_and, Bool.and_true, Bool.and_false, Bool.false_eq_true, eq_self_iff_true, if_true, if_false]
        rcases h2 : (place_furniture_general item (place_in_command_position item
            layout command_positions elements kua_group).2
            LayoutStrategy.life_goal usable_spaces elements room_width
            room_length).1 with _ | p
        · simp only [h2, Option.isNone_none, Option.isNone_some, reduceCtorEq, decide_True, decide_False, Bool.not_true, Bool.not_false, Bool.true_and, Bool.false_and, Bool.and_true, Bool.and_false, Bool.false_eq_true, eq_self_iff_true, if_true, if_false]
          exact layout_extends_trans e1 e2
        · simp only [h2, Option.isNone_none, Option.isNone_some, reduceCtorEq, decide_True, decide_False, Bool.not_true, Bool.not_false, Bool.true_and, Bool.false_and, Bool.and_true, Bool.and_false, Bool.false_eq_true, eq_self_iff_true, if_true, if_false]
          exact layout_extends_append _ (layout_extends_trans e1 e2)
    · simp only [h1, Option.isNone_none, Option.isNone_some, reduceCtorEq, decide_True, decide_False, Bool.not_true, Bool.not_false, Bool.true_and, Bool.false_and, Bool.and_true, Bool.and_false, Bool.false_eq_true, eq_self_iff_true, if_true, if_false]
      exact layout_extends_append _ e1

/-- The wall loop only appends placements and trade-offs. -/
theorem run_wall_loop_extends (strategy : LayoutStrategy) (elements : List Element)
    (kua_group : Option KuaGroup) (usable_spaces : List Space)
    (room_width room_length : ℚ) (rnd : ℕ → ℚ) :
    ∀ items layout, layout_extends layout
      (run_wall_loop strategy elements kua_group usable_spaces room_width
        room_length rnd items layout) := by
  intro items
  induction items with
  | nil =>
    intro layout
    simp only [run_wall_loop]
    exact layout_extends_refl layout
  | cons item rest ih =>
    intro layout
    simp only [run_wall_loop]
    refine layout_extends_trans ?_ (ih _)
    have e1 : layout_extends layout
        (place_against_wall item layout strategy [] elements room_width room_length
          kua_group rnd).2 :=
      extends_of_mono (place_against_wall_mono item layout strategy [] elements
        room_width room_length kua_group rnd).1 (place_against_wall_mono item layout
        strategy [] elements room_width room_length kua_group rnd).2
    have e2 : layout_extends
        (place_against_wall item layout strategy [] elements room_width room_length
          kua_group rnd).2
        (place_furniture_general item (place_against_wall item layout strategy []
            elements room_width room_length kua_group rnd).2 strategy usable_spaces
          elements room_width room_length).2 :=
      extends_of_mono (place_furniture_general_spec item _ strategy usable_spaces
        elements room_width room_length).1.1 (place_furniture_general_spec item _
        strategy usable_spaces elements room_width room_length).1.2
    rcases h1 : (place_against_wall item layout strategy [] elements room_width
        room_length kua_group rnd).1 with _ | p
    · simp only [h1, Option.isNone_none, Option.isNone_some, reduceCtorEq, decide_True, decide_False, Bool.not_true, Bool.not_false, Bool.true_and, Bool.false_and, Bool.and_true, Bool.and_false, Bool.false_eq_true, eq_self_iff_true, if_true, if_false]
      rcases h2 : (place_furniture_general item (place_against_wall item layout
          strategy [] elements room_width room_length kua_group rnd).2 strategy
          usable_spaces elements room_width room_length).1 with _ | p
      · simp only [h2, Option.isNone_none, Option.isNone_some, reduceCtorEq, decide_True, decide_False, Bool.not_true, Bool.not_false, Bool.true_and, Bool.false_and, Bool.and_true, Bool.and_false, Bool.false_eq_true, eq_self_iff_true, if_true, if_false]
        exact layout_extends_trans e1 e2
      · simp only [h2, Option.isNone_none, Option.isNone_some, reduceCtorEq, decide_True, decide_False, Bool.not_true, Bool.not_false, Bool.true_and, Bool.false_and, Bool.and_true, Bool.and_false, Bool.false_eq_true, eq_self_iff_true, if_true, if_false]
        exact layout_extends_append _ (layout_extends_trans e1 e2)
    · simp only [h1, Option.isNone_none, Option.isNone_some, reduceCtorEq, decide_True, decide_False, Bool.not_true, Bool.not_false, Bool.true_and, Bool.false_and, Bool.and_true, Bool.and_false, Bool.false_eq_true, eq_self_iff_true, if_true, if_false]
      exact layout_extends_append _ e1

/-- The large-item loop only appends placements and trade-offs. -/
theorem run_large_loop_extends (strategy : LayoutStrategy)
    (energy_flows : EnergyFlows) (elements : List Element)
    (usable_spaces : List Space) (room_width room_length : ℚ)
    (life_goal : Option String) :
    ∀ items layout, layout_extends layout
      (run_large_loop strategy energy_flows elements usable_spaces room_width
        room_length life_goal items layout) := by
  intro items
  induction items with
  | nil =>
    intro layout
    simp only [run_large_loop]
    exact layout_extends_refl layout
  | cons item rest ih =>
    intro layout
    simp only [run_large_loop]
    refine layout_extends_trans ?_ (ih _)
    have e1 : layout_extends layout
        (place_with_energy_flow item layout strategy energy_flows elements
          room_width room_length life_goal).2 :=
      extends_of_mono (place_with_energy_flow_mono item layout strategy energy_flows
        elements room_width room_length life_goal).1 (place_with_energy_flow_mono
        item layout strategy energy_flows elements room_width room_length
        life_goal).2
    have e2 : layout_extends
        (place_with_energy_flow item layout strategy energy_flows elements
          room_width room_length life_goal).2
        (place_furniture_general item (place_with_energy_flow item layout strategy
            energy_flows elements room_width room_length life_goal).2 strategy
          usable_spaces elements room_width room_length).2 :=
      extends_of_mono (place_furniture_general_spec item _ strategy usable_spaces
        elements room_width room_length).1.1 (place_furniture_general_spec item _
        strategy usable_spaces elements room_width room_length).1.2
    rcases h1 : (place_with_energy_flow item layout strategy energy_flows elements
        room_width room_length life_goal).1 with _ | p
    · simp only [h1, Option.isNone_none, Option.isNone_some, reduceCtorEq, decide_True, decide_False, Bool.not_true, Bool.not_false, Bool.true_and, Bool.false_and, Bool.and_true, Bool.and_false, Bool.false_eq_true, eq_self_iff_true, if_true, if_false]
      rcases h2 : (place_furniture_general item (place_with_energy_flow item
          layout strategy energy_flows elements room_width room_length
          life_goal).2 strategy usable_spaces elements room_width
          room_length).1 with _ | p
      · simp only [h2, Option.isNone_none, Option.isNone_some, reduceCtorEq, decide_True, decide_False, Bool.not_true, Bool.not_false, Bool.true_and, Bool.false_and, Bool.and_true, Bool.and_false, Bool.false_eq_true, eq_self_iff_true, if_true, if_false]
        exact layout_extends_trans e1 e2
      · simp only [h2, Option.isNone_none, Option.isNone_some, reduceCtorEq, decide_True, decide_False, Bool.not_true, Bool.not_false, Bool.true_and, Bool.false_and, Bool.and_true, Bool.and_false, Bool.false_eq_true, eq_self_iff_true, if_true, if_false]
        exact layout_extends_append _ (layout_extends_trans e1 e2)
    · simp only [h1, Option.isNone_none, Option.isNone_some, reduceCtorEq, decide_True, decide_False, Bool.not_true, Bool.not_false, Bool.true_and, Bool.false_and, Bool.and_true, Bool.and_false, Bool.false_eq_true, eq_self_iff_true, if_true, if_false]
      exact layout_extends_append _ e1

/-- The small-item loop only appends placements and trade-offs. -/
theorem run_small_loop_extends (strategy : LayoutStrategy)
    (bagua_map : List (String × BaguaSector)) (energy_flows : EnergyFlows)
    (elements : List Element) (usable_spaces : List Space)
    (room_width room_length : ℚ) (life_goal : Option String) :
    ∀ items layout, layout_extends layout
      (run_small_loop strategy bagua_map energy_flows elements usable_spaces
        room_width room_length life_goal items layout) := by
  intro items
  induction items with
  | nil =>
    intro layout
    simp only [run_small_loop]
    exact layout_extends_refl layout
  | cons item rest ih =>
    intro layout
    simp only [run_small_loop]
    refine layout_extends_trans ?_ (ih _)
    have e1 : layout_extends layout
        (place_small_item item layout strategy bagua_map energy_flows elements
          room_width room_length life_goal).2 :=
      extends_of_mono (place_small_item_mono item layout strategy bagua_map
        energy_flows elements room_width room_length life_goal).1
        (place_small_item_mono item layout strategy bagua_map energy_flows elements
          room_width room_length life_goal).2
    have e2 : layout_extends
        (place_small_item item layout strategy bagua_map energy_flows elements
          room_width room_length life_goal).2
        (place_furniture_general item (place_small_item item layout strategy
            bagua_map energy_flows elements room_width room_length life_goal).2
          strategy usable_spaces elements room_width room_length).2 :=
      extends_of_mono (place_furniture_general_spec item _ strategy usable_spaces
        elements room_width room_length).1.1 (place_furniture_general_spec item _
        strategy usable_spaces elements room_width room_length).1.2
    rcases h1 : (place_small_item item layout strategy bagua_map energy_flows
        elements room_width room_length life_goal).1 with _ | p
    · simp only [h1, Option.isNone_none, Option.isNone_some, reduceCtorEq, decide_True, decide_False, Bool.not_true, Bool.not_false, Bool.true_and, Bool.false_and, Bool.and_true, Bool.and_false, Bool.false_eq_true, eq_self_iff_true, if_true, if_false]
      rcases h2 : (place_furniture_general item (place_small_item item layout
          strategy bagua_map energy_flows elements room_width room_length
          life_goal).2 strategy usable_spaces elements room_width
          room_length).1 with _ | p
      · simp only [h2, Option.isNone_none, Option.isNone_some, reduceCtorEq, decide_True, decide_False, Bool.not_true, Bool.not_false, Bool.true_and, Bool.false_and, Bool.and_true, Bool.and_false, Bool.false_eq_true, eq_self_iff_true, if_true, if_false]
        exact layout_extends_trans e1 e2
      · simp only [h2, Option.isNone_none, Option.isNone_some, reduceCtorEq, decide_True, decide_False, Bool.not_true, Bool.not_false, Bool.true_and, Bool.false_and, Bool.and_true, Bool.and_false, Bool.false_eq_true, eq_self_iff_true, if_true, if_false]
        exact layout_extends_append _ (layout_extends_trans e1 e2)
    · simp only [h1, Option.isNone_none, Option.isNone_some, reduceCtorEq, decide_True, decide_False, Bool.not_true, Bool.not_false, Bool.true_and, Bool.false_and, Bool.and_true, Bool.and_false, Bool.false_eq_true, eq_self_iff_true, if_true, if_false]
      exact layout_extends_append _ e1

/-- Every item fed to the wall loop is either placed under its id or recorded
as an `unable_to_place` high-severity trade-off: the general fallback always
runs when the wall stage fails. -/
theorem run_wall_loop_spec (strategy : LayoutStrategy) (elements : List Element)
    (kua_group : Option KuaGroup) (usable_spaces : List Space)
    (room_width room_length : ℚ) (rnd : ℕ → ℚ) :
    ∀ items layout, ∀ item ∈ items,
      (∃ p ∈ (run_wall_loop strategy elements kua_group usable_spaces room_width
          room_length rnd items layout).furniture_placements,
        p.item_id = item.id) ∨
      (∃ t ∈ (run_wall_loop strategy elements kua_group usable_spaces room_width
          room_length rnd items layout).tradeoffs,
        t.item_id = item.id ∧ t.issue = "unable_to_place" ∧
          t.severity = "high") := by
  intro items
  induction items with
  | nil => intro layout item h; cases h
  | cons it rest ih =>
    intro layout item hmem
    rcases List.mem_cons.mp hmem with rfl | hmem2
    · simp only [run_wall_loop]
      rcases h1 : (place_against_wall item layout strategy [] elements room_width
          room_length kua_group rnd).1 with _ | p
      · simp only [h1, Option.isNone_none, Option.isNone_some, reduceCtorEq, decide_True, decide_False, Bool.not_true, Bool.not_false, Bool.true_and, Bool.false_and, Bool.and_true, Bool.and_false, Bool.false_eq_true, eq_self_iff_true, if_true, if_false]
        rcases h2 : (place_furniture_general item (place_against_wall item layout
            strategy [] elements room_width room_length kua_group rnd).2 strategy
            usable_spaces elements room_width room_length).1 with _ | p
        · simp only [h2]
          obtain ⟨t, htmem, hprops⟩ := (place_furniture_general_spec item
            (place_against_wall item layout strategy [] elements room_width
              room_length kua_group rnd).2 strategy usable_spaces elements
            room_width room_length).2.1 h2
          exact Or.inr ⟨t, (run_wall_loop_extends strategy elements kua_group
            usable_spaces room_width room_length rnd rest _).1 t htmem, hprops⟩
        · simp only [h2]
          refine Or.inl ⟨p, ?_, (place_furniture_general_spec item
            (place_against_wall item layout strategy [] elements room_width
              room_length kua_group rnd).2 strategy usable_spaces elements
            room_width room_length).2.2 p h2⟩
          refine (run_wall_loop_extends strategy elements kua_group usable_spaces
            room_width room_length rnd rest _).2 p ?_
          simp
      · simp only [h1, Option.isNone_none, Option.isNone_some, reduceCtorEq, decide_True, decide_False, Bool.not_true, Bool.not_false, Bool.true_and, Bool.false_and, Bool.and_true, Bool.and_false, Bool.false_eq_true, eq_self_iff_true, if_true, if_false]
        refine Or.inl ⟨p, ?_, place_against_wall_item_id item layout strategy []
          elements room_width room_length kua_group rnd p h1⟩
        refine (run_wall_loop_extends strategy elements kua_group usable_spaces
          room_width room_length rnd rest _).2 p ?_
        simp
    · exact ih _ item hmem2

/-- Every item fed to the large-item loop is either placed under its id or
recorded as an `unable_to_place` high-severity trade-off. -/
theorem run_large_loop_spec (strategy : LayoutStrategy)
    (energy_flows : EnergyFlows) (elements : List Element)
    (usable_spaces : List Space) (room_width room_length : ℚ)
    (life_goal : Option String) :
    ∀ items layout, ∀ item ∈ items,
      (∃ p ∈ (run_large_loop strategy energy_flows elements usable_spaces
          room_width room_length life_goal items layout).furniture_placements,
        p.item_id = item.id) ∨
      (∃ t ∈ (run_large_loop strategy energy_flows elements usable_spaces
          room_width room_length life_goal items layout).tradeoffs,
        t.item_id = item.id ∧ t.issue = "unable_to_place" ∧
          t.severity = "high") := by
  intro items
  induction items with
  | nil => intro layout item h; cases h
  | cons it rest ih =>
    intro layout item hmem
    rcases List.mem_cons.mp hmem with rfl | hmem2
    · simp only [run_large_loop]
      rcases h1 : (place_with_energy_flow item layout strategy energy_flows
          elements room_width room_length life_goal).1 with _ | p
      · simp only [h1, Option.isNone_none, Option.isNone_some, reduceCtorEq, decide_True, decide_False, Bool.not_true, Bool.not_false, Bool.true_and, Bool.false_and, Bool.and_true, Bool.and_false, Bool.false_eq_true, eq_self_iff_true, if_true, if_false]
        rcases h2 : (place_furniture_general item (place_with_energy_flow item
            layout strategy energy_flows elements room_width room_length
            life_goal).2 strategy usable_spaces elements room_width
            room_length).1 with _ | p
        · simp only [h2]
          obtain ⟨t, htmem, hprops⟩ := (place_furniture_general_spec item
            (place_with_energy_flow item layout strategy energy_flows elements
              room_width room_length life_goal).2 strategy usable_spaces elements
            room_width room_length).2.1 h2
          exact Or.inr ⟨t, (run_large_loop_extends strategy energy_flows elements
            usable_spaces room_width room_length life_goal rest _).1 t htmem,
            hprops⟩
        · simp only [h2]
          refine Or.inl ⟨p, ?_, (place_furniture_general_spec item
            (place_with_energy_flow item layout strategy energy_flows elements
              room_width room_length life_goal).2 strategy usable_spaces elements
            room_width room_length).2.2 p h2⟩
          refine (run_large_loop_extends strategy energy_flows elements
            usable_spaces room_width room_length life_goal rest _).2 p ?_
          simp
      · simp only [h1, Option.isNone_none, Option.isNone_some, reduceCtorEq, decide_True, decide_False, Bool.not_true, Bool.not_false, Bool.true_and, Bool.false_and, Bool.and_true, Bool.and_false, Bool.false_eq_true, eq_self_iff_true, if_true, if_false]
        refine Or.inl ⟨p, ?_, place_with_energy_flow_item_id item layout strategy
          energy_flows elements room_width room_length life_goal p h1⟩
        refine (run_large_loop_extends strategy energy_flows elements usable_spaces
          room_width room_length life_goal rest _).2 p ?_
        simp
    · exact ih _ item hmem2

/-- Every item fed to the small-item loop is either placed under its id or
recorded as an `unable_to_place` high-severity trade-off. -/
theorem run_small_loop_spec (strategy : LayoutStrategy)
    (bagua_map : List (String × BaguaSector)) (energy_flows : EnergyFlows)
    (elements : List Element) (usable_spaces : List Space)
    (room_width room_length : ℚ) (life_goal : Option String) :
    ∀ items layout, ∀ item ∈ items,
      (∃ p ∈ (run_small_loop strategy bagua_map energy_flows elements
          usable_spaces room_width room_length life_goal items
          layout).furniture_placements, p.item_id = item.id) ∨
      (∃ t ∈ (run_small_loop strategy bagua_map energy_flows elements
          usable_spaces room_width room_length life_goal items layout).tradeoffs,
        t.item_id = item.id ∧ t.issue = "unable_to_place" ∧
          t.severity = "high") := by
  intro items
  induction items with
  | nil => intro layout item h; cases h
  | cons it rest ih =>
    intro layout item hmem
    rcases List.mem_cons.mp hmem with rfl | hmem2
    · simp only [run_small_loop]
      rcases h1 : (place_small_item item layout strategy bagua_map energy_flows
          elements room_width room_length life_goal).1 with _ | p
      · simp only [h1, Option.isNone_none, Option.isNone_some, reduceCtorEq, decide_True, decide_False, Bool.not_true, Bool.not_false, Bool.true_and, Bool.false_and, Bool.and_true, Bool.and_false, Bool.false_eq_true, eq_self_iff_true, if_true, if_false]
        rcases h2 : (place_furniture_general item (place_small_item item layout
            strategy bagua_map energy_flows elements room_width room_length
            life_goal).2 strategy usable_spaces elements room_width
            room_length).1 with _ | p
        · simp only [h2]
          obtain ⟨t, htmem, hprops⟩ := (place_furniture_general_spec item
            (place_small_item item layout strategy bagua_map energy_flows elements
              room_width room_length life_goal).2 strategy usable_spaces elements
            room_width room_length).2.1 h2
          exact Or.inr ⟨t, (run_small_loop_extends strategy bagua_map energy_flows
            elements usable_spaces room_width room_length life_goal rest _).1 t
            htmem, hprops⟩
        · simp only [h2]
          refine Or.inl ⟨p, ?_, (place_furniture_general_spec item
            (place_small_item item layout strategy bagua_map energy_flows elements
              room_width room_length life_goal).2 strategy usable_spaces elements
            room_width room_length).2.2 p h2⟩
          refine (run_small_loop_extends strategy bagua_map energy_flows elements
            usable_spaces room_width room_length life_goal rest _).2 p ?_
          simp
      · simp only [h1, Option.isNone_none, Option.isNone_some, reduceCtorEq, decide_True, decide_False, Bool.not_true, Bool.not_false, Bool.true_and, Bool.false_and, Bool.and_true, Bool.and_false, Bool.false_eq_true, eq_self_iff_true, if_true, if_false]
        refine Or.inl ⟨p, ?_, place_small_item_item_id item layout strategy
          bagua_map energy_flows elements room_width room_length life_goal p h1⟩
        refine (run_small_loop_extends strategy bagua_map energy_flows elements
          usable_spaces room_width room_length life_goal rest _).2 p ?_
        simp
    · exact ih _ item hmem2

/-- Every item fed to the command loop is either placed under its id,
recorded as an `unable_to_place` high-severity trade-off, or the strategy is
`optimal` — the only strategy whose command-stage failure skips the general
fallback. -/
theorem run_command_loop_spec (strategy : LayoutStrategy)
    (command_positions : List CommandPos) (elements : List Element)
    (kua_group : Option KuaGroup) (usable_spaces : List Space)
    (room_width room_length : ℚ) :
    ∀ items layout, ∀ item ∈ items,
      (∃ p ∈ (run_command_loop strategy command_positions elements kua_group
          usable_spaces room_width room_length items
          layout).furniture_placements, p.item_id = item.id) ∨
      (∃ t ∈ (run_command_loop strategy command_positions elements kua_group
          usable_spaces room_width room_length items layout).tradeoffs,
        t.item_id = item.id ∧ t.issue = "unable_to_place" ∧
          t.severity = "high") ∨
      strategy = LayoutStrategy.optimal := by
  intro items
  induction items with
  | nil => intro layout item h; cases h
  | cons it rest ih =>
    intro layout item hmem
    rcases List.mem_cons.mp hmem with rfl | hmem2
    · simp only [run_command_loop]
      rcases h1 : (place_in_command_position item layout command_positions
          elements kua_group).1 with _ | p
      · cases strategy with
        | optimal => exact Or.inr (Or.inr rfl)
        | space_conscious =>
          have hd1 : decide (LayoutStrategy.space_conscious =
              LayoutStrategy.optimal) = false := by decide
          have hd2 : decide (LayoutStrategy.space_conscious =
              LayoutStrategy.space_conscious) = true := by decide
          simp only [h1, Option.isNone_none, Option.isNone_some, reduceCtorEq, decide_True, decide_False, Bool.not_true, Bool.not_false, Bool.true_and, Bool.false_and, Bool.and_true, Bool.and_false, Bool.false_eq_true, eq_self_iff_true, if_true, if_false]
          rcases h2 : (place_furniture_general item (place_in_command_position
              item layout command_positions elements kua_group).2
              LayoutStrategy.space_conscious usable_spaces elements room_width
              room_length).1 with _ | p
          · simp only [h2, Option.isNone_none, Option.isNone_some, reduceCtorEq, decide_True, decide_False, Bool.not_true, Bool.not_false, Bool.true_and, Bool.false_and, Bool.and_true, Bool.and_false, Bool.false_eq_true, eq_self_iff_true, if_true, if_false]
            rcases h3 : (try_alternative_placement item (place_furniture_general
                item (place_in_command_position item layout command_positions
                  elements kua_group).2 LayoutStrategy.space_conscious
                usable_spaces elements room_width room_length).2 room_width
                room_length).1 with _ | p
            · simp only [h3, Option.isNone_none, Option.isNone_some, reduceCtorEq, decide_True, decide_False, Bool.not_true, Bool.not_false, Bool.true_and, Bool.false_and, Bool.and_true, Bool.and_false, Bool.false_eq_true, eq_self_iff_true, if_true, if_false]
              obtain ⟨t, htmem, hprops⟩ := (place_furniture_general_spec item
                (place_in_command_position item layout command_positions elements
                  kua_group).2 LayoutStrategy.space_conscious usable_spaces
                elements room_width room_length).2.1 h2
              refine Or.inr (Or.inl ⟨t, ?_, hprops⟩)
              refine (run_command_loop_extends LayoutStrategy.space_conscious
                command_positions elements kua_group usable_spaces room_width
                room_length rest _).1 t ?_
              exact (try_alternative_placement_spec item (place_furniture_general
                item (place_in_command_position item layout command_positions
                  elements kua_group).2 LayoutStrategy.space_conscious
                usable_spaces elements room_width room_length).2 room_width
                room_length).1.2 t htmem
            · simp only [h3, Option.isNone_none, Option.isNone_some, reduceCtorEq, decide_True, decide_False, Bool.not_true, Bool.not_false, Bool.true_and, Bool.false_and, Bool.and_true, Bool.and_false, Bool.false_eq_true, eq_self_iff_true, if_true, if_false]
              refine Or.inl ⟨p, ?_, (try_alternative_placement_spec item
                (place_furniture_general item (place_in_command_position item
                  layout command_positions elements kua_group).2
                  LayoutStrategy.space_conscious usable_spaces elements room_width
                  room_length).2 room_width room_length).2 p h3⟩
              refine (run_command_loop_extends LayoutStrategy.space_conscious
                command_positions elements kua_group usable_spaces room_width
                room_length rest _).2 p ?_
              simp
          · simp only [h2, Option.isNone_none, Option.isNone_some, reduceCtorEq, decide_True, decide_False, Bool.not_true, Bool.not_false, Bool.true_and, Bool.false_and, Bool.and_true, Bool.and_false, Bool.false_eq_true, eq_self_iff_true, if_true, if_false]
            refine Or.inl ⟨p, ?_, (place_furniture_general_spec item
              (place_in_command_position item layout command_positions elements
                kua_group).2 LayoutStrategy.space_conscious usable_spaces elements
              room_width room_length).2.2 p h2⟩
            refine (run_command_loop_extends LayoutStrategy.space_conscious
              command_positions elements kua_group usable_spaces room_width
              room_length rest _).2 p ?_
            simp
        | life_goal =>
          have hd1 : decide (LayoutStrategy.life_goal =
              LayoutStrategy.optimal) = false := by decide
          have hd2 : decide (LayoutStrategy.life_goal =
              LayoutStrategy.space_conscious) = false := by decide
          simp only [h1, Option.isNone_none, Option.isNone_some, reduceCtorEq, decide_True, decide_False, Bool.not_true, Bool.not_false, Bool.true_and, Bool.false_and, Bool.and_true, Bool.and_false, Bool.false_eq_true, eq_self_iff_true, if_true, if_false]
          rcases h2 : (place_furniture_general item (place_in_command_position
              item layout command_positions elements kua_group).2
              LayoutStrategy.life_goal usable_spaces elements room_width
              room_length).1 with _ | p
          · simp only [h2]
            obtain ⟨t, htmem, hprops⟩ := (place_furniture_general_spec item
              (place_in_command_position item layout command_positions elements
                kua_group).2 LayoutStrategy.life_goal usable_spaces elements
              room_width room_length).2.1 h2
            refine Or.inr (Or.inl ⟨t, ?_, hprops⟩)
            exact (run_command_loop_extends LayoutStrategy.life_goal
              command_positions elements kua_group usable_spaces room_width
              room_length rest _).1 t htmem
          · simp only [h2]
            refine Or.inl ⟨p, ?_, (place_furniture_general_spec item
              (place_in_command_position item layout command_positions elements
                kua_group).2 LayoutStrategy.life_goal usable_spaces elements
              room_width room_length).2.2 p h2⟩
            refine (run_command_loop_extends LayoutStrategy.life_goal
              command_positions elements kua_group usable_spaces room_width
              room_length rest _).2 p ?_
            simp
      · simp only [h1, Option.isNone_none, Option.isNone_some, reduceCtorEq, decide_True, decide_False, Bool.not_true, Bool.not_false, Bool.true_and, Bool.false_and, Bool.and_true, Bool.and_false, Bool.false_eq_true, eq_self_iff_true, if_true, if_false]
        refine Or.inl ⟨p, ?_, place_in_command_position_item_id item layout
          command_positions elements kua_group p h1⟩
        refine (run_command_loop_extends strategy command_positions elements
          kua_group usable_spaces room_width room_length rest _).2 p ?_
        simp
    · exact ih _ item hmem2

/-- One categorisation step keeps every item already categorised and files
the new item into one of the four lists. -/
theorem categorize_step_mem (acc : List Item × List Item × List Item × List Item)
    (it item : Item)
    (h : item ∈ acc.1 ∨ item ∈ acc.2.1 ∨ item ∈ acc.2.2.1 ∨ item ∈ acc.2.2.2 ∨
      item = it) :
    item ∈ (categorize_step acc it).1 ∨ item ∈ (categorize_step acc it).2.1 ∨
    item ∈ (categorize_step acc it).2.2.1 ∨
    item ∈ (categorize_step acc it).2.2.2 := by
  simp only [categorize_step]
  repeat' split
  all_goals rcases h with h | h | h | h | rfl
  all_goals simp [*]

/-- One categorisation step only adds bed/desk items to the command list. -/
theorem categorize_step_first (acc : List Item × List Item × List Item × List Item)
    (it : Item)
    (hacc : ∀ x ∈ acc.1, get_furniture_type x.base_id = "bed" ∨
      get_furniture_type x.base_id = "desk") :
    ∀ x ∈ (categorize_step acc it).1, get_furniture_type x.base_id = "bed" ∨
      get_furniture_type x.base_id = "desk" := by
  intro x
  simp only [categorize_step]
  split
  · rename_i hcond
    intro hx
    rcases List.mem_append.mp hx with hx2 | hx2
    · exact hacc x hx2
    · rcases List.mem_singleton.mp hx2 with rfl
      exact hcond
  · split
    · exact fun hx => hacc x hx
    · split
      · exact fun hx => hacc x hx
      · exact fun hx => hacc x hx

/-- Every item fed to the categorisation fold ends up in one of the four
category lists (unless it was already in the accumulator). -/
theorem categorize_foldl_mem : ∀ (l : List Item)
    (acc : List Item × List Item × List Item × List Item) (item : Item),
    (item ∈ acc.1 ∨ item ∈ acc.2.1 ∨ item ∈ acc.2.2.1 ∨ item ∈ acc.2.2.2 ∨
      item ∈ l) →
    (item ∈ (l.foldl categorize_step acc).1 ∨
      item ∈ (l.foldl categorize_step acc).2.1 ∨
      item ∈ (l.foldl categorize_step acc).2.2.1 ∨
      item ∈ (l.foldl categorize_step acc).2.2.2) := by
  intro l
  induction l with
  | nil =>
    intro acc item h
    simp only [List.foldl_nil]
    rcases h with h | h | h | h | h
    · exact Or.inl h
    · exact Or.inr (Or.inl h)
    · exact Or.inr (Or.inr (Or.inl h))
    · exact Or.inr (Or.inr (Or.inr h))
    · cases h
  | cons it rest ih =>
    intro acc item h
    simp only [List.foldl_cons]
    apply ih
    rcases h with h | h | h | h | h
    · have h2 := categorize_step_mem acc it item (by tauto)
      tauto
    · have h2 := categorize_step_mem acc it item (by tauto)
      tauto
    · have h2 := categorize_step_mem acc it item (by tauto)
      tauto
    · have h2 := categorize_step_mem acc it item (by tauto)
      tauto
    · rcases List.mem_cons.mp h with h4 | h3
      · have h2 := categorize_step_mem acc it item (by tauto)
        tauto
      · tauto

/-- Command-list invariant of the categorisation fold: only bed/desk items
reach the first list. -/
theorem categorize_foldl_first : ∀ (l : List Item)
    (acc : List Item × List Item × List Item × List Item),
    (∀ x ∈ acc.1, get_furniture_type x.base_id = "bed" ∨
      get_furniture_type x.base_id = "desk") →
    ∀ x ∈ (l.foldl categorize_step acc).1,
      get_furniture_type x.base_id = "bed" ∨
      get_furniture_type x.base_id = "desk" := by
  intro l
  induction l with
  | nil =>
    intro acc hacc
    simpa using hacc
  | cons it rest ih =>
    intro acc hacc
    simp only [List.foldl_cons]
    exact ih _ (categorize_step_first acc it hacc)

/-- Every item lands in one of the four category lists, and items in the
command list are beds or desks. -/
theorem categorize_furniture_cases (all_items : List Item) (item : Item)
    (h : item ∈ all_items) :
    (item ∈ (categorize_furniture all_items).1 ∧
      (get_furniture_type item.base_id = "bed" ∨
        get_furniture_type item.base_id = "desk")) ∨
    item ∈ (categorize_furniture all_items).2.1 ∨
    item ∈ (categorize_furniture all_items).2.2.1 ∨
    item ∈ (categorize_furniture all_items).2.2.2 := by
  simp only [categorize_furniture]
  have hmem := categorize_foldl_mem all_items ([], [], [], []) item (by tauto)
  have hfirst := categorize_foldl_first all_items ([], [], [], [])
    (by intro x hx; cases hx)
  rcases hmem with h2 | h2 | h2 | h2
  · exact Or.inl ⟨h2, hfirst item h2⟩
  · exact Or.inr (Or.inl h2)
  · exact Or.inr (Or.inr (Or.inl h2))
  · exact Or.inr (Or.inr (Or.inr h2))

/-- Claim C8 (amended): for every room analysis, furniture selection, kua
group, life goal, strategy and PRNG stream, every extracted furniture item
is either placed in the final layout under its id, or carries a
high-severity `unable_to_place` trade-off under its id — EXCEPT that a
command-category (bed/desk) item under the `optimal` strategy may fail
silently, because `place_all_furniture` explicitly skips the general
fallback for command items exactly when the strategy is optimal, and the
command stage itself records no failure trade-off. -/
theorem C8_unplaced_item_has_tradeoff_amended (room_analysis : RoomAnalysis)
    (furniture_selections : FurnitureSelections) (kua_group : Option KuaGroup)
    (primary_life_goal : Option String) (strategy : LayoutStrategy)
    (rnd : ℕ → ℚ) :
    (extract_furniture_items furniture_selections).Forall (fun item =>
      (∃ p ∈ (place_all_furniture room_analysis furniture_selections kua_group
          primary_life_goal strategy rnd).furniture_placements,
        p.item_id = item.id) ∨
      (∃ t ∈ (place_all_furniture room_analysis furniture_selections kua_group
          primary_life_goal strategy rnd).tradeoffs,
        t.item_id = item.id ∧ t.issue = "unable_to_place" ∧
          t.severity = "high") ∨
      ((get_furniture_type item.base_id = "bed" ∨
          get_furniture_type item.base_id = "desk") ∧
        strategy = LayoutStrategy.optimal)) := by
  rw [List.forall_iff_forall_mem]
  intro item hmem
  have hcases := categorize_furniture_cases
    (extract_furniture_items furniture_selections) item hmem
  simp only [place_all_furniture]
  set W := room_analysis.dimensions.width with hW
  set Len := room_analysis.dimensions.length with hLen
  set E := room_analysis.elements with hE
  set CP := room_analysis.command_positions with hCP
  set US := room_analysis.usable_spaces with hUS
  set EF := room_analysis.energy_flow with hEF
  set BM := room_analysis.bagua_map with hBM
  set cat := categorize_furniture (extract_furniture_items furniture_selections)
    with hcat
  set L0 : Layout := ⟨[], [], 0, []⟩ with hL0
  set L1 := run_command_loop strategy CP E kua_group US W Len cat.1 L0 with hL1
  set L2 := run_wall_loop strategy E kua_group US W Len rnd cat.2.1 L1 with hL2
  set L3 := run_large_loop strategy EF E US W Len primary_life_goal cat.2.2.1 L2
    with hL3
  set L4 := run_small_loop strategy BM EF E US W Len primary_life_goal cat.2.2.2
    L3 with hL4
  rcases hcases with ⟨hc, hbd⟩ | hw2 | hl2 | hs2
  · rcases run_command_loop_spec strategy CP E kua_group US W Len cat.1 L0 item hc
      with ⟨p, hp, hpid⟩ | ⟨t, ht, htp⟩ | hopt
    · refine Or.inl ⟨p, ?_, hpid⟩
      exact (run_small_loop_extends strategy BM EF E US W Len primary_life_goal
        cat.2.2.2 L3).2 p ((run_large_loop_extends strategy EF E US W Len
        primary_life_goal cat.2.2.1 L2).2 p ((run_wall_loop_extends strategy E
        kua_group US W Len rnd cat.2.1 L1).2 p hp))
    · refine Or.inr (Or.inl ⟨t, ?_, htp⟩)
      exact (run_small_loop_extends strategy BM EF E US W Len primary_life_goal
        cat.2.2.2 L3).1 t ((run_large_loop_extends strategy EF E US W Len
        primary_life_goal cat.2.2.1 L2).1 t ((run_wall_loop_extends strategy E
        kua_group US W Len rnd cat.2.1 L1).1 t ht))
    · exact Or.inr (Or.inr ⟨hbd, hopt⟩)
  · rcases run_wall_loop_spec strategy E kua_group US W Len rnd cat.2.1 L1 item
      hw2 with ⟨p, hp, hpid⟩ | ⟨t, ht, htp⟩
    · exact Or.inl ⟨p, (run_small_loop_extends strategy BM EF E US W Len
        primary_life_goal cat.2.2.2 L3).2 p ((run_large_loop_extends strategy EF
        E US W Len primary_life_goal cat.2.2.1 L2).2 p hp), hpid⟩
    · exact Or.inr (Or.inl ⟨t, (run_small_loop_extends strategy BM EF E US W Len
        primary_life_goal cat.2.2.2 L3).1 t ((run_large_loop_extends strategy EF
        E US W Len primary_life_goal cat.2.2.1 L2).1 t ht), htp⟩)
  · rcases run_large_loop_spec strategy EF E US W Len primary_life_goal
        cat.2.2.1 L2 item hl2 with ⟨p, hp, hpid⟩ | ⟨t, ht, htp⟩
    · exact Or.inl ⟨p, (run_small_loop_extends strategy BM EF E US W Len
        primary_life_goal cat.2.2.2 L3).2 p hp, hpid⟩
    · exact Or.inr (Or.inl ⟨t, (run_small_loop_extends strategy BM EF E US W Len
        primary_life_goal cat.2.2.2 L3).1 t ht, htp⟩)
  · rcases run_small_loop_spec strategy BM EF E US W Len primary_life_goal
        cat.2.2.2 L3 item hs2 with ⟨p, hp, hpid⟩ | ⟨t, ht, htp⟩
    · exact Or.inl ⟨p, hp, hpid⟩
    · exact Or.inr (Or.inl ⟨t, ht, htp⟩)

/-- Claim C8 counterexample: a 40×40 room whose analysis carries no command
positions, one queen bed (a command-category item), optimal strategy.
`place_in_command_position` returns `(None, layout)` without recording
anything, and under the optimal strategy the general fallback is skipped:
the final layout has no placement and no trade-off at all, so the bed's
placement failure is silent, against the claim's "always recorded as a
high-severity trade-off". -/
theorem C8_optimal_command_failure_is_silent :
    (extract_furniture_items ⟨[("queen_bed", ⟨1, 20, 20, some "Queen Bed", none,
        none⟩)]⟩).map (fun item => item.id) = ["queen_bed_0"] ∧
    get_furniture_type "queen_bed" = "bed" ∧
    (place_all_furniture
        { dimensions := ⟨40, 40⟩
          elements := []
          command_positions := []
          usable_spaces := []
          energy_flow := ⟨[], [], []⟩
          bagua_map := [] }
        ⟨[("queen_bed", ⟨1, 20, 20, some "Queen Bed", none, none⟩)]⟩
        none none LayoutStrategy.optimal (fun _ => 0)).furniture_placements
      = [] ∧
    (place_all_furniture
        { dimensions := ⟨40, 40⟩
          elements := []
          command_positions := []
          usable_spaces := []
          energy_flow := ⟨[], [], []⟩
          bagua_map := [] }
        ⟨[("queen_bed", ⟨1, 20, 20, some "Queen Bed", none, none⟩)]⟩
        none none LayoutStrategy.optimal (fun _ => 0)).tradeoffs = [] := by
  refine ⟨by decide, ?_, ?_, ?_⟩
  · simp [get_furniture_type, pyLower, pyIn, charsContain]
  · simp [place_all_furniture, extract_furniture_items, categorize_furniture,
      categorize_step, get_furniture_type, pyLower, pyIn, charsContain,
      run_command_loop, run_wall_loop, run_large_loop, run_small_loop,
      place_in_command_position, List.flatMap]
  · simp [place_all_furniture, extract_furniture_items, categorize_furniture,
      categorize_step, get_furniture_type, pyLower, pyIn, charsContain,
      run_command_loop, run_wall_loop, run_large_loop, run_small_loop,
      place_in_command_position, List.flatMap]

/-- Claim C3 counterexample: the implementation counts every trade-off in
the list individually, with no worst-severity-per-item deduplication.  A
layout with one placed item carrying both a high and a low trade-off scores
70 − 8 − 1 = 61, while the claim's formula (counting the item once, as high)
yields 70 − 8 = 62. -/
theorem C3_score_counts_every_tradeoff :
    calculate_layout_score
      { furniture_placements :=
          [⟨"item_0", "item", "Item", 0, 0, 1, 1, 0, false, false, "poor", none, none, none⟩]
        tradeoffs := [⟨"item_0", "bed_under_window", "d", "high", "m"⟩,
                      ⟨"item_0", "suboptimal_placement", "d", "low", "m"⟩]
        feng_shui_score := 0
        constraints := [] } = 61 ∧
    spec_layout_score
      { furniture_placements :=
          [⟨"item_0", "item", "Item", 0, 0, 1, 1, 0, false, false, "poor", none, none, none⟩]
        tradeoffs := [⟨"item_0", "bed_under_window", "d", "high", "m"⟩,
                      ⟨"item_0", "suboptimal_placement", "d", "low", "m"⟩]
        feng_shui_score := 0
        constraints := [] } = 62 ∧
    ((61 : ℚ) ≠ (62 : ℚ)) := by
  refine ⟨?_, ?_, by norm_num⟩
  · simp [calculate_layout_score, pyint, List.filter]
    norm_num
  · simp [spec_layout_score, worst_severity_for, severity_value,
      List.filter, List.map, List.foldl, List.foldr, List.contains]
    norm_num

/-- Claim C3 (amended): for every layout with at least one placed item, the
score equals the clamped formula with every trade-off counted individually
by severity (no per-item deduplication) and the result truncated to an
integer by Python's `int`. -/
theorem C3_score_formula_amended (layout : Layout)
    (h : layout.furniture_placements ≠ []) :
    calculate_layout_score layout =
      pyint (max 0 (min 100 (70
        + ((layout.furniture_placements.countP (fun p => p.in_command_position)) : ℚ)
            / (layout.furniture_placements.length : ℚ) * 100 * (15/100)
        + ((layout.furniture_placements.countP (fun p => p.against_wall)) : ℚ)
            / (layout.furniture_placements.length : ℚ) * 100 * (1/10)
        + ((layout.furniture_placements.countP (fun p =>
              p.feng_shui_quality == "excellent" || p.feng_shui_quality == "good")) : ℚ)
            / (layout.furniture_placements.length : ℚ) * 100 * (1/10)
        - 8 * ((layout.tradeoffs.countP (fun t => t.severity == "high")) : ℚ)
        - 4 * ((layout.tradeoffs.countP (fun t => t.severity == "medium")) : ℚ)
        - 1 * ((layout.tradeoffs.countP (fun t =>
              !(t.severity == "high") && !(t.severity == "medium"))) : ℚ)))) := by
  have hlen : layout.furniture_placements.length ≠ 0 := by
    simpa [List.length_eq_zero] using h
  simp only [calculate_layout_score, List.countP_eq_length_filter]
  rw [if_neg hlen, if_pos (Nat.pos_of_ne_zero hlen), if_pos (Nat.pos_of_ne_zero hlen),
    if_pos (Nat.pos_of_ne_zero hlen)]
  congr 2
  ring

/-- Witness for the amended C3 at a one-placement layout with one medium
trade-off: the score is int(clamp(70 + 15 + 10 + 10 − 4)) = 100 clamped. -/
theorem C3_score_formula_amended_witness :
    calculate_layout_score
      { furniture_placements :=
          [⟨"desk_0", "desk", "Desk", 0, 0, 1, 1, 0, true, true, "good", none, none, none⟩]
        tradeoffs := [⟨"desk_0", "blocks_door", "d", "medium", "m"⟩]
        feng_shui_score := 0
        constraints := [] } =
      pyint (max 0 (min 100 (70
        + ((([⟨"desk_0", "desk", "Desk", 0, 0, 1, 1, 0, true, true, "good", none, none,
              none⟩] : List Placement).countP (fun p => p.in_command_position)) : ℚ)
            / ((([⟨"desk_0", "desk", "Desk", 0, 0, 1, 1, 0, true, true, "good", none, none,
              none⟩] : List Placement)).length : ℚ) * 100 * (15/100)
        + ((([⟨"desk_0", "desk", "Desk", 0, 0, 1, 1, 0, true, true, "good", none, none,
              none⟩] : List Placement).countP (fun p => p.against_wall)) : ℚ)
            / ((([⟨"desk_0", "desk", "Desk", 0, 0, 1, 1, 0, true, true, "good", none, none,
              none⟩] : List Placement)).length : ℚ) * 100 * (1/10)
        + ((([⟨"desk_0", "desk", "Desk", 0, 0, 1, 1, 0, true, true, "good", none, none,
              none⟩] : List Placement).countP (fun p =>
              p.feng_shui_quality == "excellent" || p.feng_shui_quality == "good")) : ℚ)
            / ((([⟨"desk_0", "desk", "Desk", 0, 0, 1, 1, 0, true, true, "good", none, none,
              none⟩] : List Placement)).length : ℚ) * 100 * (1/10)
        - 8 * ((([⟨"desk_0", "blocks_door", "d", "medium", "m"⟩] : List Tradeoff).countP
              (fun t => t.severity == "high")) : ℚ)
        - 4 * ((([⟨"desk_0", "blocks_door", "d", "medium", "m"⟩] : List Tradeoff).countP
              (fun t => t.severity == "medium")) : ℚ)
        - 1 * ((([⟨"desk_0", "blocks_door", "d", "medium", "m"⟩] : List Tradeoff).countP
              (fun t =>
              !(t.severity == "high") && !(t.severity == "medium"))) : ℚ)))) :=
  C3_score_formula_amended _ (by simp)

/-- Claim C4 (code_bug evidence): a female whose lunar-adjusted birth year
has digital root 9 receives kua number 5 from the code, not the remapped 8
demanded by the spec — the `elif` chain skips the `5 → 8` remap whenever the
subtraction branch ran.  Digit sum of 2016 is 9, so kua = 9 + 5 = 14 → 5. -/
theorem C4_female_digital_root_nine_gets_five :
    calculate_kua_number "female" 2016 6 15 = some 5 := by
  decide

/-- Claim C5: `calculate_kua_number` is deterministic, lands in `[1, 9]` for
every gender string and complete birth date, and `get_kua_group` sends the
result to East exactly on {1,3,4,9} and to West exactly on {2,5,6,7,8}. -/
theorem C5_kua_deterministic_range_group (gender : String) (y m d : ℕ)
    (hg : gender ≠ "") (hy : y ≠ 0) (hm : m ≠ 0) (hd : d ≠ 0) :
    calculate_kua_number gender y m d = calculate_kua_number gender y m d ∧
    ∃ k, calculate_kua_number gender y m d = some k ∧ 1 ≤ k ∧ k ≤ 9 ∧
      (get_kua_group (some k) = some KuaGroup.east ↔ k = 1 ∨ k = 3 ∨ k = 4 ∨ k = 9) ∧
      (get_kua_group (some k) = some KuaGroup.west ↔
        k = 2 ∨ k = 5 ∨ k = 6 ∨ k = 7 ∨ k = 8) := by
  refine ⟨rfl, ?_⟩
  have hcond : ¬(gender = "" ∨ y = 0 ∨ m = 0 ∨ d = 0) := by simp [hg, hy, hm, hd]
  simp only [calculate_kua_number, hcond, if_false]
  have hroot := digital_root_loop_le_nine
    (digit_sum (if m = 1 ∨ (m = 2 ∧ d < 4) then y - 1 else y))
  generalize hg2 :
    digital_root_loop (digit_sum (if m = 1 ∨ (m = 2 ∧ d < 4) then y - 1 else y)) = ys
    at hroot ⊢
  by_cases hmale : pyLower gender = "male"
  · rw [if_pos hmale]
    interval_cases ys <;>
      exact ⟨_, rfl, by decide, by decide, by decide, by decide⟩
  · rw [if_neg hmale]
    interval_cases ys <;>
      exact ⟨_, rfl, by decide, by decide, by decide, by decide⟩

/-- Witness for C5 at gender "male", birth date 1990-05-05. -/
theorem C5_kua_deterministic_range_group_witness :
    calculate_kua_number "male" 1990 5 5 = calculate_kua_number "male" 1990 5 5 ∧
    ∃ k, calculate_kua_number "male" 1990 5 5 = some k ∧ 1 ≤ k ∧ k ≤ 9 ∧
      (get_kua_group (some k) = some KuaGroup.east ↔ k = 1 ∨ k = 3 ∨ k = 4 ∨ k = 9) ∧
      (get_kua_group (some k) = some KuaGroup.west ↔
        k = 2 ∨ k = 5 ∨ k = 6 ∨ k = 7 ∨ k = 8) :=
  C5_kua_deterministic_range_group "male" 1990 5 5 (by decide) (by decide)
    (by decide) (by decide)

/-- Claim C10: a layout with no placements scores exactly 0, regardless of
its trade-off list — the zero-item early return fires before the base score
of 70 is ever used. -/
theorem C10_empty_layout_scores_zero (layout : Layout)
    (h : layout.furniture_placements = []) :
    calculate_layout_score layout = 0 := by
  simp [calculate_layout_score, h]

/-- Witness for C10: an empty layout carrying one high-severity trade-off. -/
theorem C10_empty_layout_scores_zero_witness :
    calculate_layout_score
      { furniture_placements := []
        tradeoffs := [⟨"bed_0", "unable_to_place", "d", "high", "m"⟩]
        feng_shui_score := 0
        constraints := [] } = 0 :=
  C10_empty_layout_scores_zero _ rfl

/-- Claim C9 (code_bug evidence): for the East orientation the bagua map
emits a zone named "health" and no "relationships" zone, so the 9 zone names
are not the fixed set the spec requires for every orientation; the "health"
zone also receives no element annotation because the `bagua_elements` table
has no such key. -/
theorem C9_east_bagua_has_health_not_relationships :
    (create_bagua_map 3 3 "E").map Prod.fst =
      ["family", "health", "wealth", "knowledge", "center", "fame",
       "career", "helpful_people", "children"] ∧
    "relationships" ∉ (create_bagua_map 3 3 "E").map Prod.fst ∧
    ((create_bagua_map 3 3 "E").lookup "health").map (fun s => s.element) =
      some none := by
  refine ⟨?_, ?_, ?_⟩ <;>
    simp [create_bagua_map, bagua_elements, List.lookup]

end FengShui
